import Mathlib

/-!
Verification development for the CityVotes Dallas-TX pipeline.

The definitions below are a shallow embedding of the two Python source
files of the repository:

* `Dallas-TX/extract_dallas.py` — the extraction workflow, in particular
  `normalize_agenda_number`, `derive_passed`, `phase3_correlate` and
  `_merge_socrata_into_item` (the cross-source correlator);
* `build_site.py` — the site builder, in particular `normalize_name`,
  `map_vote`, `derive_outcome`, `classify_section`, `classify_topics`,
  `classify_non_voted_item`, `_load_all_csv_data`,
  `_compute_member_stats` and `_generate_alignment_json`.

Python strings are modelled as Lean `String`s and Python string
primitives (`strip`, `upper`, `lower`, `in`, `rstrip`, `split`,
slicing) are re-implemented over `List Char` so that every definition
evaluates by kernel reduction.  Python `dict`s are modelled as
insertion-ordered association lists with last-write-wins update, which
is exactly the semantics of CPython ≥ 3.7 dicts.  Python's stable
`list.sort` is modelled by a stable insertion sort parameterised by the
strict key comparison.  Python `float` arithmetic on the computed
percentage rates is modelled by exact rational arithmetic with
round-half-to-even (`round(x, 1)`), which agrees with CPython whenever
the quantities are exactly representable.
-/

/-! ## Python string primitives -/

/-- One step of Python `str.upper` restricted to ASCII. -/
def upperChar (c : Char) : Char :=
  if 'a' ≤ c ∧ c ≤ 'z' then Char.ofNat (c.toNat - 32) else c

/-- One step of Python `str.lower` restricted to ASCII. -/
def lowerChar (c : Char) : Char :=
  if 'A' ≤ c ∧ c ≤ 'Z' then Char.ofNat (c.toNat + 32) else c

/-- Python `str.upper` (ASCII fragment). -/
def pyUpper (s : String) : String := String.mk (s.toList.map upperChar)

/-- Python `str.lower` (ASCII fragment). -/
def pyLower (s : String) : String := String.mk (s.toList.map lowerChar)

/-- Python `str.strip` with no argument: drop surrounding whitespace. -/
def pyStrip (s : String) : String :=
  String.mk (((s.toList.dropWhile Char.isWhitespace).reverse.dropWhile
    Char.isWhitespace).reverse)

/-- Python `str.rstrip(c)` for a single strip character. -/
def pyRstrip (c : Char) (s : String) : String :=
  String.mk ((s.toList.reverse.dropWhile (· = c)).reverse)

/-- Boolean list prefix test (used for substring search). -/
def isPrefixList : List Char → List Char → Bool
  | [], _ => true
  | _ :: _, [] => false
  | a :: as, b :: bs => a = b && isPrefixList as bs

/-- Boolean contiguous-infix test on character lists. -/
def isInfixList (needle : List Char) : List Char → Bool
  | [] => needle.isEmpty
  | b :: bs => isPrefixList needle (b :: bs) || isInfixList needle bs

/-- Python `needle in hay` on strings. -/
def containsStr (hay needle : String) : Bool :=
  isInfixList needle.toList hay.toList

/-- Python `hay.startswith(needle)`. -/
def startsWithStr (hay needle : String) : Bool :=
  isPrefixList needle.toList hay.toList

/-- Python `str.isdigit` (ASCII fragment): nonempty and all digits. -/
def pyIsDigit (s : String) : Bool :=
  !s.toList.isEmpty && s.toList.all Char.isDigit

/-- Value of an all-digit character list, as in Python `int(s)`. -/
def digitsToNat (l : List Char) : Nat :=
  l.foldl (fun n c => 10 * n + (c.toNat - '0'.toNat)) 0

/-- Python `str.split()` with no argument: split on whitespace runs,
dropping empty fields.  Implemented as a structural fold so that it
evaluates by kernel reduction. -/
def splitWS (l : List Char) : List (List Char) :=
  let step := fun (acc : List (List Char) × List Char) (c : Char) =>
    if c.isWhitespace then
      (if acc.2 = [] then acc.1 else acc.1 ++ [acc.2.reverse], ([] : List Char))
    else (acc.1, c :: acc.2)
  let r := l.foldl step ([], [])
  if r.2 = [] then r.1 else r.1 ++ [r.2.reverse]

/-- Python `" ".join(words)`. -/
def joinSpace : List String → String
  | [] => ""
  | [x] => x
  | x :: y :: xs => x ++ " " ++ joinSpace (y :: xs)

/-- Strict lexicographic comparison of character lists (Python `<` on
strings, by code point). -/
def listLt : List Char → List Char → Bool
  | _, [] => false
  | [], _ :: _ => true
  | a :: as, b :: bs => a < b || (a = b && listLt as bs)

/-- Python `<` on strings. -/
def strLtB (a b : String) : Bool := listLt a.toList b.toList

/-- Python `<` on pairs of strings (tuple comparison). -/
def keyLtB (a b : String × String) : Bool :=
  strLtB a.1 b.1 || (a.1 = b.1 && strLtB a.2 b.2)

/-! ## Python dicts and stable sorting -/

/-- Python dict assignment `d[k] = v` on an insertion-ordered
association list: overwrite in place if the key is present, append
otherwise (CPython ≥ 3.7 semantics). -/
def dinsert (l : List (String × String)) (k v : String) :
    List (String × String) :=
  if l.any (fun p => p.1 = k) then
    l.map (fun p => if p.1 = k then (k, v) else p)
  else l ++ [(k, v)]

/-- Insert an element in front of the first entry that is not strictly
below it.  Auxiliary for the stable sort. -/
def insertBy {α : Type} (lt : α → α → Bool) (a : α) : List α → List α
  | [] => [a]
  | b :: bs => if lt b a then b :: insertBy lt a bs else a :: b :: bs

/-- Stable sort by a strict comparison, modelling Python's stable
`list.sort(key=...)`: elements whose keys tie keep their input order. -/
def sortBy {α : Type} (lt : α → α → Bool) : List α → List α
  | [] => []
  | a :: as => insertBy lt a (sortBy lt as)

/-! ## Python rounding -/

/-- Round-half-to-even on rationals (Python `round` to 0 digits). -/
def roundHalfEven (q : ℚ) : ℤ :=
  let f := ⌊q⌋
  if q - f < 1 / 2 then f
  else if (1 : ℚ) / 2 < q - f then f + 1
  else if f % 2 = 0 then f else f + 1

/-- Python `round(q, 1)` on exact rationals. -/
def pyRound1 (q : ℚ) : ℚ := (roundHalfEven (q * 10) : ℚ) / 10

/-! ## extract_dallas.py — leaf helpers -/

/-- Keyword list `APPROVAL_KEYWORDS` of `extract_dallas.py`. -/
def APPROVAL_KEYWORDS : List String :=
  ["APPROVED", "ADOPTED", "PASSED", "CONFIRMED", "ACCEPTED",
   "GRANTED", "SUSTAINED", "RATIFIED"]

/-- Keyword list `DENIAL_KEYWORDS` of `extract_dallas.py`. -/
def DENIAL_KEYWORDS : List String :=
  ["DENIED", "FAILED", "REJECTED", "DEFEATED"]

/-- Embedding of `normalize_agenda_number` (extract_dallas.py,
lines 114–126): empty input maps to empty; otherwise strip surrounding
whitespace, strip all trailing periods, and collapse an all-digit
remainder through an integer round-trip. -/
def normalize_agenda_number (raw : String) : String :=
  if raw = "" then ""
  else
    let cleaned := pyRstrip '.' (pyStrip raw)
    if pyIsDigit cleaned then Nat.repr (digitsToNat cleaned.toList)
    else cleaned

/-- Embedding of `derive_passed` (extract_dallas.py, lines 129–147). -/
def derive_passed (final_action : String) : Option Int :=
  if final_action = "" then none
  else
    let upper := pyUpper final_action
    if APPROVAL_KEYWORDS.any (fun k => containsStr upper k) then some 1
    else if DENIAL_KEYWORDS.any (fun k => containsStr upper k) then some 0
    else if containsStr upper "AMENDED" then some 1
    else none

/-! ## build_site.py — leaf helpers -/

/-- Table `NAME_ALIASES` of `build_site.py`. -/
def NAME_ALIASES : List (String × String) :=
  [("Adam  Bazaldua", "Adam Bazaldua"),
   ("Adam  Medrano", "Adam Medrano"),
   ("B. Adam McGough", "Adam McGough"),
   ("Carolyn Arnold", "Carolyn King Arnold"),
   ("Carolyn King  Arnold", "Carolyn King Arnold"),
   ("Gay Donnel Willis", "Gay Donnell Willis"),
   ("Jaynie Schultz", "Jaynie Shultz"),
   ("Jennifer S.  Gates", "Jennifer S. Gates"),
   ("Jesse  Moreno", "Jesse Moreno"),
   ("Tennel Atkins", "Tennell Atkins"),
   ("Tennell  Atkins", "Tennell Atkins"),
   ("Zarin D. Gracey", "Zarin Gracey")]

/-- Embedding of `normalize_name` (build_site.py, lines 55–60). -/
def normalize_name (name : String) : String :=
  let stripped := pyStrip name
  let collapsed := joinSpace ((splitWS stripped.toList).map String.mk)
  (NAME_ALIASES.lookup collapsed).getD collapsed

/-- Table `VOTE_MAP` of `build_site.py` (lines 67–74). -/
def VOTE_MAP : List (String × String) :=
  [("YES", "AYE"),
   ("NO", "NAY"),
   ("AWVT", "ABSENT"),
   ("ABSNT", "ABSENT"),
   ("ABSNT_CB", "ABSENT"),
   ("ABST", "ABSTAIN")]

/-- Embedding of `map_vote` (build_site.py, lines 79–84). -/
def map_vote (raw_vote : String) : Option String :=
  let v := pyUpper (pyStrip raw_vote)
  if v = "" ∨ v = "N/A" then none
  else VOTE_MAP.lookup v

/-- Embedding of `derive_outcome` (build_site.py, lines 91–134). -/
def derive_outcome (passed_val final_action matter_status : String) : String :=
  let p := pyStrip passed_val
  let fa := pyUpper (pyStrip final_action)
  let ms := pyUpper (pyStrip matter_status)
  if p = "1" then "PASS"
  else if p = "0" then
    if containsStr fa "DENIED" then "FAIL"
    else if containsStr fa "DEFERRED" then "CONTINUED"
    else if containsStr fa "DELETED" then "WITHDRAWN"
    else if containsStr fa "DID NOT PASS" then "FAIL"
    else "FAIL"
  else if ["APPROVED", "ADOPTED", "PASSED", "CONFIRMED", "ACCEPTED",
           "GRANTED", "SUSTAINED", "RATIFIED"].any
      (fun k => containsStr fa k) then "PASS"
  else if containsStr fa "AMENDED" then "PASS"
  else if ["DENIED", "REJECTED", "DEFEATED", "FAILED"].any
      (fun k => containsStr fa k) then "FAIL"
  else if containsStr fa "DEFERRED" || containsStr fa "HELD" then "CONTINUED"
  else if containsStr fa "DELETED" || containsStr fa "WITHDRAWN" then
    "WITHDRAWN"
  else if containsStr fa "REMANDED" then "CONTINUED"
  else if containsStr fa "TABLED" then "TABLED"
  else if containsStr ms "APPROVED" then "PASS"
  else if containsStr ms "DEFERRED" then "CONTINUED"
  else "PASS"

/-- Embedding of `classify_section` (build_site.py, lines 141–156). -/
def classify_section (matter_status title agenda_info : String) : String :=
  let ms := pyUpper matter_status
  let t := pyUpper title
  let _ai := pyUpper agenda_info
  if containsStr ms "HEARING" || containsStr t "HEARING" ||
      containsStr t "PUBLIC HEARING" then "PUBLIC_HEARING"
  else if containsStr ms "CONSENT" || containsStr ms "CONSENT AGENDA" then
    "CONSENT"
  else if containsStr ms "INDIVIDUAL" then "GENERAL"
  else if containsStr t "ZONING" then "PUBLIC_HEARING"
  else "CONSENT"

/-- Table `TOPIC_KEYWORDS` of `build_site.py` (lines 163–226), in the
declared order. -/
def TOPIC_KEYWORDS : List (String × List String) :=
  [("Appointments",
    ["appointment", "board", "commission", "nominate", "nominee"]),
   ("Budget & Finance",
    ["budget", "appropriation", "revenue", "fiscal", "tax increment",
     "financing", "financial", "fund", "bond", "revenue"]),
   ("Community Services",
    ["library", "libraries", "social service", "community",
     "nonprofit", "non-profit", "youth", "senior"]),
   ("Contracts & Agreements",
    ["contract", "agreement", "memorandum of understanding", "mou",
     "vendor", "procurement", "rfp", "supplemental agreement",
     "interlocal", "professional services"]),
   ("Economic Development",
    ["economic development", "incentive", "redevelopment", "tif",
     "tax increment", "business", "commercial"]),
   ("Emergency Services",
    ["police", "fire", "ems", "emergency", "disaster", "dpd",
     "fire-rescue", "public safety", "law enforcement"]),
   ("Health & Safety",
    ["health", "safety", "code enforcement", "sanitation",
     "environmental", "hazardous", "pollution"]),
   ("Housing",
    ["housing", "affordable", "residential", "tenant", "homeless",
     "shelter"]),
   ("Infrastructure",
    ["infrastructure", "water", "sewer", "drainage", "storm",
     "utility", "utilities", "pipeline", "watershed", "dwu"]),
   ("Ordinances & Resolutions",
    ["ordinance", "resolution", "municipal code", "amend",
     "chapter", "code amendment"]),
   ("Parks & Recreation",
    ["park", "recreation", "trail", "playground", "open space"]),
   ("Planning & Development",
    ["zoning", "land use", "planning", "permit", "plat",
     "specific use", "comprehensive plan", "variance",
     "planned development", "cpc"]),
   ("Property & Real Estate",
    ["property", "real estate", "easement", "lease", "deed",
     "right-of-way", "right of way", "conveyance"]),
   ("Public Works",
    ["street", "road", "maintenance", "waste", "sanitary",
     "facilities", "construction", "repair", "renovation",
     "design-build"]),
   ("Transportation",
    ["transportation", "transit", "traffic", "signal", "dart",
     "pedestrian", "bicycle", "bike", "parking", "txdot",
     "highway", "freeway"])]

/-- Embedding of `classify_topics` (build_site.py, lines 229–242). -/
def classify_topics (title : String) : List String :=
  if title = "" then ["General"]
  else
    let tl := pyLower title
    let hits := (TOPIC_KEYWORDS.filter
      (fun tk => tk.2.any (fun kw => containsStr tl kw))).map (fun tk => tk.1)
    if hits = [] then ["General"] else hits.take 3

/-- List `SECTION_HEADERS` of `build_site.py` (lines 249–255). -/
def SECTION_HEADERS : List String :=
  ["AGENDA", "ORDER OF BUSINESS", "INVOCATION", "PLEDGE OF ALLEGIANCE",
   "OPEN MICROPHONE", "MINUTES", "CONSENT AGENDA",
   "ITEMS FOR INDIVIDUAL CONSIDERATION", "ADDITIONS", "ZONING",
   "PUBLIC HEARINGS AND RELATED ACTIONS", "ADJOURNMENT",
   "BRIEFINGS", "PRESENTATIONS"]

/-- Embedding of `classify_non_voted_item` (build_site.py,
lines 258–292).  Returns (category, importance, display type). -/
def classify_non_voted_item (title matter_type matter_status final_action :
    String) : String × String × String :=
  let t := pyUpper (pyStrip title)
  let _mt := pyUpper (pyStrip matter_type)
  let ms := pyUpper (pyStrip matter_status)
  let fa := pyUpper (pyStrip final_action)
  if SECTION_HEADERS.any (fun sh => t = sh || startsWithStr t (sh ++ "\n")) then
    ("committee_header", "medium", "section_header")
  else if containsStr fa "FIRST" && containsStr fa "READ" then
    ("first_reading", "high", "legislation")
  else if containsStr t "FIRST READING" then
    ("first_reading", "high", "legislation")
  else if containsStr fa "READ" && containsStr fa "FILED" then
    ("read_and_filed", "low", "procedural")
  else if containsStr fa "ADOPTED" || containsStr ms "APPROVED" then
    ("adopted_no_vote", "medium", "legislation")
  else if containsStr fa "CORRECT" || containsStr ms "CORRECT" then
    ("corrections", "low", "procedural")
  else if containsStr t "HEARING" then
    ("other", "medium", "legislation")
  else ("other", "low", "procedural")

/-! ## extract_dallas.py — correlator (phase 3) -/

/-- A Socrata vote record, with the fields `phase3_correlate` and
`_merge_socrata_into_item` read. -/
structure SRec where
  date : String
  agenda_item_number : String
  voter_name : String
  vote : String
  agenda_item_description : String
  final_action_taken : String
  item_type : String
deriving DecidableEq

/-- A Legistar item dict, with the full field list built by
`phase1_legistar` / synthesized in `phase3_correlate`.  Fields that the
Legistar JSON types as integers (`agenda_sequence`, `passed`) are
`Option Int` (`none` for the Python empty string or `None`); string
fields stay strings. -/
structure LItem where
  event_id : String
  event_date : String
  event_time : String
  event_body : String
  event_location : String
  event_item_id : String
  agenda_number : String
  agenda_sequence : Option Int
  title : String
  matter_file : String
  matter_type : String
  matter_status : String
  matter_id : String
  passed : Option Int
  vote_type : String
  consent : String
  tally : String
  mover : String
  seconder : String
  roll_call_flag : Int
  matter_title : String
  matter_intro_date : String
  matter_enactment_number : String
  matter_requester : String
  matter_body_name : String
  agenda_link : String
  minutes_link : String
  video_link : String
  attachment_links : String
  socrata_item_number : String
  socrata_agenda_info : String
  socrata_final_action : String
  item_votes : List (String × String)
deriving DecidableEq

/-- The per-member vote dict built by `_merge_socrata_into_item`
(lines 782–788): one name → vote-code entry per record with a nonempty
voter name, last write wins. -/
def votesOfGroup (recs : List SRec) : List (String × String) :=
  recs.foldl
    (fun acc r =>
      if r.voter_name ≠ "" then dinsert acc r.voter_name r.vote else acc)
    []

/-- Embedding of `_merge_socrata_into_item` (extract_dallas.py,
lines 757–790). -/
def merge_socrata_into_item (item : LItem) (socrata_records : List SRec) :
    LItem :=
  match socrata_records with
  | [] => item
  | sample :: _ =>
    let item1 := { item with
      socrata_item_number := sample.agenda_item_number
      socrata_agenda_info := sample.item_type
      socrata_final_action := sample.final_action_taken
      passed := derive_passed sample.final_action_taken
      vote_type := "Socrata Roll Call" }
    let item2 :=
      if item1.title = "" then
        { item1 with title := sample.agenda_item_description }
      else item1
    { item2 with item_votes := votesOfGroup socrata_records }

/-- Composite key of a Socrata record: (first 10 chars of the date,
normalized agenda number). -/
def socrataKey (r : SRec) : String × String :=
  (r.date.take 10, normalize_agenda_number r.agenda_item_number)

/-- One step of the `socrata_by_key` grouping dict build
(lines 663–669): append the record to its key's group, creating the
group at the end on first sight of the key. -/
def groupStep (acc : List ((String × String) × List SRec)) (r : SRec) :
    List ((String × String) × List SRec) :=
  let key := socrataKey r
  if acc.any (fun g => g.1 = key) then
    acc.map (fun g => if g.1 = key then (g.1, g.2 ++ [r]) else g)
  else acc ++ [(key, [r])]

/-- Grouping of Socrata records by composite key in insertion order
(`socrata_by_key`, lines 662–669): a Python dict of lists. -/
def groupByKey (recs : List SRec) : List ((String × String) × List SRec) :=
  recs.foldl groupStep []

/-- Composite key of a Legistar item (`legistar_by_key`, lines 672–679):
`none` when the normalized agenda number is empty (such items are never
indexed). -/
def litemKey (item : LItem) : Option (String × String) :=
  let n := normalize_agenda_number item.agenda_number
  if n = "" then none else some (item.event_date, n)

/-- Python `key in legistar_by_key`: some item of the list carries the
key. -/
def keyIndexed (items : List LItem) (k : String × String) : Bool :=
  items.any (fun it => litemKey it = some k)

/-- The in-place effect of the merge loop of `phase3_correlate`
(lines 685–692) on one Legistar item, given the items that follow it in
the input list: the dict `legistar_by_key` holds, for each key, the
LAST item carrying it (later insertions overwrite earlier ones), so an
item receives the merge of its key's Socrata group exactly when no
later item carries the same key. -/
def mergeTransform (groups : List ((String × String) × List SRec))
    (rest : List LItem) (it : LItem) : LItem :=
  match litemKey it with
  | none => it
  | some k =>
    match groups.lookup k with
    | none => it
    | some recs =>
      if keyIndexed rest k then it else merge_socrata_into_item it recs

/-- The Legistar item list after the in-place merge loop of
`phase3_correlate` (lines 685–692). -/
def mergedLegistar (groups : List ((String × String) × List SRec)) :
    List LItem → List LItem
  | [] => []
  | it :: rest => mergeTransform groups rest it :: mergedLegistar groups rest

/-- Socrata group keys with no Legistar counterpart
(`unmatched_socrata_keys`). -/
def unmatchedKeys (items : List LItem)
    (groups : List ((String × String) × List SRec)) :
    List (String × String) :=
  (groups.map (fun g => g.1)).filter (fun k => !keyIndexed items k)

/-- The fresh item dict synthesized for an unmatched Socrata group
(lines 698–740), before `_merge_socrata_into_item` runs on it.
`minutesLinks` and `videoLinks` model the `_minutes_links` and
`_swagit_videos` date→URL dicts. -/
def newItemBase (minutesLinks videoLinks : List (String × String))
    (k : String × String) (recs : List SRec) : LItem :=
  { event_id := ""
    event_date := k.1
    event_time := ""
    event_body := "City Council"
    event_location := ""
    event_item_id := ""
    agenda_number := ((recs.head?).map (fun r => r.agenda_item_number)).getD ""
    agenda_sequence := none
    title := ((recs.head?).map (fun r => r.agenda_item_description)).getD ""
    matter_file := ""
    matter_type := ""
    matter_status := ""
    matter_id := ""
    passed := none
    vote_type := ""
    consent := ""
    tally := ""
    mover := ""
    seconder := ""
    roll_call_flag := 0
    matter_title := ""
    matter_intro_date := ""
    matter_enactment_number := ""
    matter_requester := ""
    matter_body_name := ""
    agenda_link := ""
    minutes_link := (minutesLinks.lookup k.1).getD ""
    video_link := (videoLinks.lookup k.1).getD ""
    attachment_links := ""
    socrata_item_number := ""
    socrata_agenda_info := ""
    socrata_final_action := ""
    item_votes := [] }

/-- The item synthesized for an unmatched Socrata group. -/
def newItemFor (minutesLinks videoLinks : List (String × String))
    (k : String × String) (recs : List SRec) : LItem :=
  merge_socrata_into_item (newItemBase minutesLinks videoLinks k recs) recs

/-- Integer value the final sort reads from `agenda_sequence`
(`int(x.get('agenda_sequence', 0) or 0)`). -/
def seqOf (x : LItem) : Int := x.agenda_sequence.getD 0

/-- Strict comparison for the final sort of `phase3_correlate`
(lines 745–749): key (event date, agenda sequence, raw agenda number),
ascending. -/
def phase3Lt (x y : LItem) : Bool :=
  strLtB x.event_date y.event_date ||
  (x.event_date = y.event_date &&
    (seqOf x < seqOf y ||
      (seqOf x = seqOf y && strLtB x.agenda_number y.agenda_number)))

/-- Embedding of `phase3_correlate` (extract_dallas.py, lines 645–755). -/
def phase3_correlate (minutesLinks videoLinks : List (String × String))
    (legistar_items : List LItem) (socrata_records : List SRec) :
    List LItem :=
  if socrata_records = [] then legistar_items
  else
    let groups := groupByKey socrata_records
    let merged := mergedLegistar groups legistar_items
    let new_items := (sortBy keyLtB (unmatchedKeys legistar_items groups)).map
      (fun k => newItemFor minutesLinks videoLinks k ((groups.lookup k).getD []))
    sortBy phase3Lt (merged ++ new_items)

/-! ## build_site.py — CSV loader (_load_all_csv_data) -/

/-- Python `s or None` on a string-valued field. -/
def strOrNone (s : String) : Option String :=
  if s = "" then none else some s

/-- The nested `vote` dict of a voted agenda item. -/
structure VoteInfo where
  id : Nat
  outcome : String
  ayes : Nat
  noes : Nat
  abstain : Nat
  absent : Nat
deriving DecidableEq

/-- An entry of a meeting's `agenda_items` list.  Voted and non-voted
items populate different key sets; keys absent from a variant are
`none`. -/
structure AgendaItem where
  agenda_sequence : Nat
  item_type : String
  category : Option String
  importance : Option String
  display_type : Option String
  item_number : Option String
  title : String
  sec : Option String
  matter_file : Option String
  matter_type : Option String
  action : Option String
  description : Option String
  topics : Option (List String)
  vote : Option VoteInfo
deriving DecidableEq

/-- An entry of `self.votes` (a voted item with its per-member vote
dict). -/
structure VoteRec where
  id : Nat
  outcome : String
  ayes : Nat
  noes : Nat
  abstain : Nat
  absent : Nat
  item_number : String
  sec : String
  title : String
  description : String
  meeting_date : String
  meeting_id : Nat
  meeting_type : String
  topics : List String
  matter_file : Option String
  matter_type : Option String
  member_votes : List (String × String)
deriving DecidableEq

/-- A meeting dict of `meetings_by_key`. -/
structure Meeting where
  id : Nat
  event_id : String
  meeting_date : String
  meeting_type : String
  legistar_url : Option String
  agenda_url : Option String
  minutes_url : Option String
  video_url : Option String
  vote_count : Nat
  non_voted_count : Nat
  first_reading_count : Nat
  agenda_item_count : Nat
  agenda_items : List AgendaItem
deriving DecidableEq

/-- An entry of `self.all_items` (tracked non-voted items). -/
structure NVItem where
  event_item_id : String
  meeting_date : String
  meeting_id : Nat
  agenda_sequence : Nat
  title : String
  matter_file : Option String
  matter_type : Option String
  action : Option String
  category : String
  topics : List String
  description_preview : String
deriving DecidableEq

/-- One CSV row of a `*-Votes.csv` file: the fixed columns
`_load_all_csv_data` reads plus the dynamic member columns (column
name, raw vote string). -/
structure CsvRow where
  event_date : String
  event_id : String
  agenda_sequence : String
  agenda_number : String
  title : String
  event_item_id : String
  passed : String
  socrata_final_action : String
  matter_status : String
  socrata_agenda_info : String
  matter_title : String
  matter_file : String
  matter_type : String
  agenda_link : String
  minutes_link : String
  video_link : String
  member_cols : List (String × String)
deriving DecidableEq

/-- Mutable state of the `_load_all_csv_data` loop. -/
structure BuildState where
  meetings_by_key : List ((String × String) × Meeting)
  seen_items : List (String × String)
  votes : List VoteRec
  all_items : List NVItem
  vote_id_counter : Nat
  meeting_id_counter : Nat

/-- Initial builder state (`DallasSiteBuilder.__init__`). -/
def initBuildState : BuildState := ⟨[], [], [], [], 0, 0⟩

/-- Python dict assignment on the meetings-by-key dict. -/
def aupdate (l : List ((String × String) × Meeting)) (k : String × String)
    (m : Meeting) : List ((String × String) × Meeting) :=
  if l.any (fun p => p.1 = k) then
    l.map (fun p => if p.1 = k then (k, m) else p)
  else l ++ [(k, m)]

/-- The per-item member-vote dict (build_site.py, lines 524–531): map
each member column through `normalize_name`/`map_vote`, keep mapped
votes of rostered members, last write wins. -/
def buildMemberVotes (members : List String)
    (cols : List (String × String)) : List (String × String) :=
  cols.foldl
    (fun acc cv =>
      let canonical := normalize_name cv.1
      let raw_vote := pyStrip cv.2
      match map_vote raw_vote with
      | some mapped =>
        if members.contains canonical then dinsert acc canonical mapped
        else acc
      | none => acc)
    []

/-- Link preference update (build_site.py, lines 514–521): take the
stripped row value only when nonempty and the current value is falsy. -/
def updLink (cur : Option String) (v : String) : Option String :=
  let val := pyStrip v
  if val ≠ "" ∧ (cur = none ∨ cur = some "") then some val else cur

/-- A fresh meeting dict (build_site.py, lines 493–508). -/
def freshMeeting (mid : Nat) (event_id date : String) (row : CsvRow) :
    Meeting :=
  { id := mid
    event_id := event_id
    meeting_date := date
    meeting_type := "regular"
    legistar_url := none
    agenda_url := if row.agenda_link = "" then none else some row.agenda_link
    minutes_url := if row.minutes_link = "" then none else some row.minutes_link
    video_url := if row.video_link = "" then none else some row.video_link
    vote_count := 0
    non_voted_count := 0
    first_reading_count := 0
    agenda_item_count := 0
    agenda_items := [] }

/-- The voted branch of the row loop (build_site.py, lines 536–600):
append one vote record and one voted agenda item, bump the meeting's
vote count. -/
def votedUpdate (st : BuildState) (mkey : String × String) (mcounter : Nat)
    (seen2 : List (String × String)) (m2 : Meeting)
    (date seq item_num title : String) (row : CsvRow)
    (member_votes : List (String × String)) (aseq : Nat) : BuildState :=
  let vote_id := st.vote_id_counter + 1
  let outcome :=
    derive_outcome row.passed row.socrata_final_action row.matter_status
  let sec := classify_section row.matter_status title row.socrata_agenda_info
  let topics := classify_topics title
  let ayes := member_votes.countP (fun p => p.2 = "AYE")
  let noes := member_votes.countP (fun p => p.2 = "NAY")
  let abstain := member_votes.countP (fun p => p.2 = "ABSTAIN")
  let absent := member_votes.countP (fun p => p.2 = "ABSENT")
  let item_number :=
    let r := pyRstrip '.' item_num
    if r = "" then seq else r
  let vrec : VoteRec :=
    { id := vote_id
      outcome := outcome
      ayes := ayes
      noes := noes
      abstain := abstain
      absent := absent
      item_number := item_number
      sec := sec
      title := title
      description := pyStrip row.matter_title
      meeting_date := date
      meeting_id := m2.id
      meeting_type := "regular"
      topics := topics
      matter_file := strOrNone (pyStrip row.matter_file)
      matter_type := strOrNone (pyStrip row.matter_type)
      member_votes := member_votes }
  let aitem : AgendaItem :=
    { agenda_sequence := aseq
      item_type := "voted"
      category := none
      importance := none
      display_type := none
      item_number := some item_number
      title := title
      sec := some sec
      matter_file := vrec.matter_file
      matter_type := vrec.matter_type
      action := none
      description := none
      topics := some topics
      vote := some ⟨vote_id, outcome, ayes, noes, abstain, absent⟩ }
  let m3 := { m2 with
    vote_count := m2.vote_count + 1
    agenda_items := m2.agenda_items ++ [aitem] }
  { meetings_by_key := aupdate st.meetings_by_key mkey m3
    seen_items := seen2
    votes := st.votes ++ [vrec]
    all_items := st.all_items
    vote_id_counter := vote_id
    meeting_id_counter := mcounter }

/-- The non-voted branch of the row loop (build_site.py,
lines 602–645): classify the item, append one non-voted agenda item,
bump the non-voted (and possibly first-reading) counts, and track the
item unless it is a section header. -/
def nonVotedUpdate (st : BuildState) (mkey : String × String)
    (mcounter : Nat) (seen2 : List (String × String)) (m2 : Meeting)
    (date title eid : String) (row : CsvRow) (aseq : Nat) : BuildState :=
  let fa := pyStrip row.socrata_final_action
  let cid := classify_non_voted_item title row.matter_type row.matter_status fa
  let category := cid.1
  let importance := cid.2.1
  let display_type := cid.2.2
  let aitem : AgendaItem :=
    { agenda_sequence := aseq
      item_type := "non_voted"
      category := some category
      importance := some importance
      display_type := some display_type
      item_number := none
      title := title
      sec := none
      matter_file := strOrNone (pyStrip row.matter_file)
      matter_type := strOrNone (pyStrip row.matter_type)
      action := strOrNone fa
      description := strOrNone (pyStrip row.matter_title)
      topics :=
        if importance = "high" then some (classify_topics title) else none
      vote := none }
  let m3 := { m2 with
    non_voted_count := m2.non_voted_count + 1
    first_reading_count :=
      m2.first_reading_count + (if category = "first_reading" then 1 else 0)
    agenda_items := m2.agenda_items ++ [aitem] }
  let nv : NVItem :=
    { event_item_id := eid
      meeting_date := date
      meeting_id := m2.id
      agenda_sequence := aseq
      title := title
      matter_file := aitem.matter_file
      matter_type := aitem.matter_type
      action := strOrNone fa
      category := category
      topics := classify_topics title
      description_preview := title.take 200 }
  { meetings_by_key := aupdate st.meetings_by_key mkey m3
    seen_items := seen2
    votes := st.votes
    all_items :=
      if category ≠ "committee_header" then st.all_items ++ [nv]
      else st.all_items
    vote_id_counter := st.vote_id_counter
    meeting_id_counter := mcounter }

/-- One iteration of the row loop of `_load_all_csv_data`
(build_site.py, lines 470–645). -/
def processRow (members : List String) (st : BuildState) (row : CsvRow) :
    BuildState :=
  let date := pyStrip row.event_date
  if date = "" then st
  else
    let event_id := pyStrip row.event_id
    let seq := pyStrip row.agenda_sequence
    let item_num := pyStrip row.agenda_number
    let title := pyStrip row.title
    let eid := pyStrip row.event_item_id
    if title = "" then st
    else
      let item_key :=
        (date, if eid ≠ "" then eid
               else seq ++ "_" ++ item_num ++ "_" ++ title.take 50)
      if st.seen_items.contains item_key then st
      else
        let seen2 := st.seen_items ++ [item_key]
        let mkey := (event_id, date)
        let created := (st.meetings_by_key.lookup mkey).isNone
        let mcounter :=
          if created then st.meeting_id_counter + 1 else st.meeting_id_counter
        let m0 :=
          match st.meetings_by_key.lookup mkey with
          | some m => m
          | none => freshMeeting (st.meeting_id_counter + 1) event_id date row
        let m1 := { m0 with
          agenda_url := updLink m0.agenda_url row.agenda_link
          minutes_url := updLink m0.minutes_url row.minutes_link
          video_url := updLink m0.video_url row.video_link }
        let member_votes := buildMemberVotes members row.member_cols
        let m2 := { m1 with agenda_item_count := m1.agenda_item_count + 1 }
        let aseq :=
          if pyIsDigit seq then digitsToNat seq.toList
          else m2.agenda_item_count - 1
        if member_votes ≠ [] then
          votedUpdate st mkey mcounter seen2 m2 date seq item_num title row
            member_votes aseq
        else
          nonVotedUpdate st mkey mcounter seen2 m2 date title eid row aseq

/-- Strict comparison for the per-meeting agenda-item sort
(line 649). -/
def itemSeqLt (a b : AgendaItem) : Bool :=
  a.agenda_sequence < b.agenda_sequence

/-- Strict comparison for the date-descending meeting sort
(lines 652–656). -/
def meetingDateGt (a b : Meeting) : Bool :=
  strLtB b.meeting_date a.meeting_date

/-- Strict comparison for the (date, item number)-descending vote sort
(line 659). -/
def voteKeyGt (a b : VoteRec) : Bool :=
  keyLtB (b.meeting_date, b.item_number) (a.meeting_date, a.item_number)

/-- Result of `_load_all_csv_data`. -/
structure BuildResult where
  meetings : List Meeting
  votes : List VoteRec
  all_items : List NVItem

/-- Embedding of `_load_all_csv_data` (build_site.py, lines 436–659):
fold the row loop, sort each meeting's agenda items by sequence, sort
meetings by date descending and votes by (date, item number)
descending. -/
def load_all_csv_data (members : List String) (rows : List CsvRow) :
    BuildResult :=
  let st := rows.foldl (processRow members) initBuildState
  let ms := st.meetings_by_key.map
    (fun p => { p.2 with agenda_items := sortBy itemSeqLt p.2.agenda_items })
  { meetings := sortBy meetingDateGt ms
    votes := sortBy voteKeyGt st.votes
    all_items := st.all_items }

/-! ## build_site.py — member statistics and alignment -/

/-- The counters accumulated by the loop of `_compute_member_stats`
(build_site.py, lines 722–760). -/
structure MemberStats where
  total : Nat
  aye_count : Nat
  nay_count : Nat
  abstain_count : Nat
  absent_count : Nat
  recusal_count : Nat
  votes_on_losing_side : Nat
  close_vote_dissents : Nat
deriving DecidableEq

/-- One iteration of the `_compute_member_stats` loop. -/
def statsStep (name : String) (s : MemberStats) (v : VoteRec) : MemberStats :=
  match v.member_votes.lookup name with
  | none => s
  | some mv =>
    let s1 := { s with total := s.total + 1 }
    let s2 :=
      if mv = "AYE" then { s1 with aye_count := s1.aye_count + 1 }
      else if mv = "NAY" then { s1 with nay_count := s1.nay_count + 1 }
      else if mv = "ABSTAIN" then { s1 with abstain_count := s1.abstain_count + 1 }
      else if mv = "ABSENT" then { s1 with absent_count := s1.absent_count + 1 }
      else if mv = "RECUSAL" then { s1 with recusal_count := s1.recusal_count + 1 }
      else s1
    if v.outcome = "PASS" ∨ v.outcome = "FAIL" then
      if (v.outcome = "PASS" ∧ mv = "NAY") ∨ (v.outcome = "FAIL" ∧ mv = "AYE")
      then
        let s3 :=
          { s2 with votes_on_losing_side := s2.votes_on_losing_side + 1 }
        if ((v.ayes : Int) - (v.noes : Int)).natAbs ≤ 2 then
          { s3 with close_vote_dissents := s3.close_vote_dissents + 1 }
        else s3
      else s2
    else s2

/-- The counters of `_compute_member_stats` over the full vote corpus. -/
def member_stats_counts (votes : List VoteRec) (name : String) : MemberStats :=
  votes.foldl (statsStep name) ⟨0, 0, 0, 0, 0, 0, 0, 0⟩

/-- The `special_outcomes` count of `_compute_member_stats`
(lines 764–768): participated records whose outcome is neither PASS nor
FAIL. -/
def special_outcomes (votes : List VoteRec) (name : String) : Nat :=
  votes.countP (fun v =>
    (v.member_votes.lookup name).isSome &&
      !(v.outcome = "PASS" || v.outcome = "FAIL"))

/-- The `dissent_denom` of `_compute_member_stats` (lines 762–769). -/
def dissent_denom (votes : List VoteRec) (name : String) : Int :=
  let c := member_stats_counts votes name
  let valid : Int := (c.total : Int) - c.absent_count - c.abstain_count
  let so : Int := special_outcomes votes name
  if valid > so then valid - so else 1

/-- The `dissent_rate` field of `_compute_member_stats`
(lines 782–784). -/
def dissent_rate (votes : List VoteRec) (name : String) : ℚ :=
  let d := dissent_denom votes name
  if d ≠ 0 then
    pyRound1
      (((member_stats_counts votes name).votes_on_losing_side : ℚ) /
        (d : ℚ) * 100)
  else 0

/-- One iteration of the shared/agreement loop of
`_generate_alignment_json` (build_site.py, lines 1035–1042). -/
def alignStep (m1 m2 : String) (acc : Nat × Nat) (v : VoteRec) : Nat × Nat :=
  let v1 := v.member_votes.lookup m1
  let v2 := v.member_votes.lookup m2
  if (v1 = some "AYE" ∨ v1 = some "NAY") ∧
      (v2 = some "AYE" ∨ v2 = some "NAY") then
    (acc.1 + 1, if v1 = v2 then acc.2 + 1 else acc.2)
  else acc

/-- Shared and agreeing vote counts for a member pair. -/
def align_counts (votes : List VoteRec) (m1 m2 : String) : Nat × Nat :=
  votes.foldl (alignStep m1 m2) (0, 0)

/-- An alignment-pair record of `alignment.json`. -/
structure AlignPair where
  member1 : String
  member2 : String
  shared_votes : Nat
  agreements : Nat
  agreement_rate : ℚ
deriving DecidableEq

/-- The pair record appended by `_generate_alignment_json`
(lines 1044–1051), or `none` when the pair has no shared votes and is
omitted.  `shortName` models the `short_name` display lookup. -/
def alignment_pair (shortName : String → String) (votes : List VoteRec)
    (m1 m2 : String) : Option AlignPair :=
  let c := align_counts votes m1 m2
  if c.1 > 0 then
    some
      { member1 := shortName m1
        member2 := shortName m2
        shared_votes := c.1
        agreements := c.2
        agreement_rate := pyRound1 ((c.2 : ℚ) / (c.1 : ℚ) * 100) }
  else none

/-- Python `itertools.combinations(l, 2)` in enumeration order. -/
def combos2 : List String → List (String × String)
  | [] => []
  | x :: xs => xs.map (fun y => (x, y)) ++ combos2 xs

/-- Strict comparison for the agreement-rate sort (line 1053). -/
def rateLt (a b : AlignPair) : Bool := a.agreement_rate < b.agreement_rate

/-- The `alignment_pairs` list of `_generate_alignment_json`
(lines 1031–1053): one candidate per unordered pair of current members
in sorted order, pairs without shared votes omitted, sorted by
agreement rate ascending. -/
def alignment_pairs (shortName : String → String) (votes : List VoteRec)
    (current : List String) : List AlignPair :=
  let pairs := (combos2 (sortBy strLtB current)).filterMap
    (fun p => alignment_pair shortName votes p.1 p.2)
  sortBy rateLt pairs

/-! ## Definitions following the claims' wording

These definitions are NOT translated from the source; each follows the
words of one spec claim, for comparison with the source-translated
definition of the same name. -/

/-- Claim C4's wording of the key normalizer: trim surrounding
whitespace, strip ONE trailing period, then collapse an all-digit
remainder by integer round-trip; empty input yields empty output. -/
def normalize_agenda_number_claim (raw : String) : String :=
  if raw = "" then ""
  else
    let t := pyStrip raw
    let cleaned :=
      if t.toList.getLast? = some '.' then String.mk t.toList.dropLast else t
    if pyIsDigit cleaned then Nat.repr (digitsToNat cleaned.toList)
    else cleaned

/-- One round of "strip one trailing period", iterated with fuel by
`normalize_agenda_number_amended`. -/
def stripDotsFuel : Nat → String → String
  | 0, t => t
  | n + 1, t =>
    if t.toList.getLast? = some '.' then
      stripDotsFuel n (String.mk t.toList.dropLast)
    else t

/-- Claim C4 as amended: trim surrounding whitespace, strip trailing
periods (repeatedly, until none remains), then collapse an all-digit
remainder by integer round-trip; empty input yields empty output. -/
def normalize_agenda_number_amended (raw : String) : String :=
  if raw = "" then ""
  else
    let t := pyStrip raw
    let cleaned := stripDotsFuel t.toList.length t
    if pyIsDigit cleaned then Nat.repr (digitsToNat cleaned.toList)
    else cleaned

/-- Claim C2's wording of the outcome classifier: identical to
`derive_outcome` except in the passed=0 branch, where the claim's rule
order is: DENIED or DID NOT PASS → FAIL; DEFERRED → CONTINUED;
DELETED → WITHDRAWN; otherwise FAIL, first match winning. -/
def derive_outcome_claim (passed_val final_action matter_status : String) :
    String :=
  let p := pyStrip passed_val
  let fa := pyUpper (pyStrip final_action)
  let ms := pyUpper (pyStrip matter_status)
  if p = "1" then "PASS"
  else if p = "0" then
    if containsStr fa "DENIED" || containsStr fa "DID NOT PASS" then "FAIL"
    else if containsStr fa "DEFERRED" then "CONTINUED"
    else if containsStr fa "DELETED" then "WITHDRAWN"
    else "FAIL"
  else if ["APPROVED", "ADOPTED", "PASSED", "CONFIRMED", "ACCEPTED",
           "GRANTED", "SUSTAINED", "RATIFIED"].any
      (fun k => containsStr fa k) then "PASS"
  else if containsStr fa "AMENDED" then "PASS"
  else if ["DENIED", "REJECTED", "DEFEATED", "FAILED"].any
      (fun k => containsStr fa k) then "FAIL"
  else if containsStr fa "DEFERRED" || containsStr fa "HELD" then "CONTINUED"
  else if containsStr fa "DELETED" || containsStr fa "WITHDRAWN" then
    "WITHDRAWN"
  else if containsStr fa "REMANDED" then "CONTINUED"
  else if containsStr fa "TABLED" then "TABLED"
  else if containsStr ms "APPROVED" then "PASS"
  else if containsStr ms "DEFERRED" then "CONTINUED"
  else "PASS"

/-- Claim C3's wording of the dissent-rate denominator: the number of
records where the member participated with a choice other than
ABSENT/ABSTAIN and whose outcome is PASS or FAIL, floored at 1. -/
def dissent_denom_claim (votes : List VoteRec) (name : String) : Nat :=
  max 1 (votes.countP (fun v =>
    match v.member_votes.lookup name with
    | some mv =>
      mv ≠ "ABSENT" && mv ≠ "ABSTAIN" &&
        (v.outcome = "PASS" || v.outcome = "FAIL")
    | none => false))

/-- Claim C3's wording of the dissent rate: 100 times the losing-side
count divided by the claim's denominator. -/
def dissent_rate_claim (votes : List VoteRec) (name : String) : ℚ :=
  ((member_stats_counts votes name).votes_on_losing_side : ℚ) * 100 /
    (dissent_denom_claim votes name : ℚ)

/-- The count invariants of one meeting dict: every derived count
equals the size of the corresponding partition of its agenda-item
list. -/
def meetingOK (m : Meeting) : Prop :=
  m.agenda_item_count = m.agenda_items.length ∧
  m.vote_count = m.agenda_items.countP (fun it => it.item_type = "voted") ∧
  m.non_voted_count =
    m.agenda_items.countP (fun it => it.item_type = "non_voted") ∧
  m.first_reading_count =
    m.agenda_items.countP (fun it => it.category = some "first_reading") ∧
  ∀ it ∈ m.agenda_items,
    it.item_type = "voted" ∨ it.item_type = "non_voted"

/-! ## Concrete fixtures

Small concrete inputs used to instantiate the theorems below. -/

/-- A Legistar item dict with every field empty, as a base for concrete
fixtures. -/
def emptyLItem : LItem :=
  { event_id := "", event_date := "", event_time := "", event_body := "",
    event_location := "", event_item_id := "", agenda_number := "",
    agenda_sequence := none, title := "", matter_file := "", matter_type := "",
    matter_status := "", matter_id := "", passed := none, vote_type := "",
    consent := "", tally := "", mover := "", seconder := "", roll_call_flag := 0,
    matter_title := "", matter_intro_date := "", matter_enactment_number := "",
    matter_requester := "", matter_body_name := "", agenda_link := "",
    minutes_link := "", video_link := "", attachment_links := "",
    socrata_item_number := "", socrata_agenda_info := "",
    socrata_final_action := "", item_votes := [] }

/-- Fixture: a Legistar item dated 2025-10-15 with agenda number 12. -/
def itemA : LItem := { emptyLItem with
  event_date := "2025-10-15"
  agenda_number := "12."
  title := "Zoning case" }

/-- Fixture: a second Legistar item with the same composite key as
`itemA`, appearing later in the input list. -/
def itemA2 : LItem := { itemA with title := "Later duplicate" }

/-- Fixture: a Socrata vote record matching `itemA` by composite key. -/
def srecB1 : SRec :=
  { date := "2025-10-15T00:00:00"
    agenda_item_number := "12"
    voter_name := "Alice"
    vote := "YES"
    agenda_item_description := "desc"
    final_action_taken := "APPROVED"
    item_type := "CONSENT" }

/-- Fixture: a second vote record in the same Socrata group. -/
def srecB2 : SRec := { srecB1 with
  voter_name := "Bob"
  vote := "NO" }

/-- Fixture: a Socrata record whose key matches no Legistar item. -/
def srecC : SRec := { srecB1 with
  agenda_item_number := "99"
  voter_name := "Carol"
  final_action_taken := "" }

/-- Fixture: a CSV row carrying one voted item. -/
def row1 : CsvRow :=
  { event_date := "2025-10-15"
    event_id := "77"
    agenda_sequence := "3"
    agenda_number := "12."
    title := "Zoning case"
    event_item_id := "900"
    passed := "1"
    socrata_final_action := "APPROVED"
    matter_status := ""
    socrata_agenda_info := ""
    matter_title := ""
    matter_file := ""
    matter_type := ""
    agenda_link := ""
    minutes_link := ""
    video_link := ""
    member_cols := [("Alice X", "YES"), ("Bob Y", "NO"), ("Zed", "N/A")] }

/-- Fixture: a CSV row carrying a section-header item. -/
def row2 : CsvRow := { row1 with
  event_item_id := "901"
  agenda_sequence := "1"
  agenda_number := ""
  title := "MINUTES"
  member_cols := [] }

/-- Fixture: a CSV row carrying a non-voted first-reading item. -/
def row3 : CsvRow := { row1 with
  event_item_id := "902"
  agenda_sequence := "2"
  agenda_number := "5"
  title := "First reading of stuff"
  socrata_final_action := "FIRST READING"
  member_cols := [] }

/-- Fixture: a PASS vote with member M on the losing side at margin 0. -/
def sv1 : VoteRec :=
  { id := 1
    outcome := "PASS"
    ayes := 1
    noes := 1
    abstain := 0
    absent := 0
    item_number := "1"
    sec := "CONSENT"
    title := "t"
    description := ""
    meeting_date := "2025-01-01"
    meeting_id := 1
    meeting_type := "regular"
    topics := []
    matter_file := none
    matter_type := none
    member_votes := [("M", "NAY")] }

/-- Fixture: a PASS vote where member M votes AYE. -/
def sv2 : VoteRec := { sv1 with
  id := 2
  member_votes := [("M", "AYE")] }

/-- Fixture: a CONTINUED vote where member M is marked ABSENT. -/
def sv3 : VoteRec := { sv1 with
  id := 3
  outcome := "CONTINUED"
  member_votes := [("M", "ABSENT")] }

/-! ## General lemmas about the Python-primitive models -/

theorem insertBy_perm {α : Type} (lt : α → α → Bool) (a : α) (l : List α) :
    (insertBy lt a l).Perm (a :: l) := by
  induction l with
  | nil => simp [insertBy]
  | cons b bs ih =>
    simp only [insertBy]
    split
    · exact (ih.cons b).trans (List.Perm.swap a b bs)
    · exact List.Perm.refl _

theorem sortBy_perm {α : Type} (lt : α → α → Bool) (l : List α) :
    (sortBy lt l).Perm l := by
  induction l with
  | nil => simp [sortBy]
  | cons a as ih =>
    exact (insertBy_perm lt a (sortBy lt as)).trans (ih.cons a)

theorem length_sortBy {α : Type} (lt : α → α → Bool) (l : List α) :
    (sortBy lt l).length = l.length :=
  (sortBy_perm lt l).length_eq

theorem countP_sortBy {α : Type} (lt : α → α → Bool) (p : α → Bool)
    (l : List α) : (sortBy lt l).countP p = l.countP p :=
  (sortBy_perm lt l).countP_eq p

theorem mem_sortBy {α : Type} (lt : α → α → Bool) (a : α) (l : List α) :
    a ∈ sortBy lt l ↔ a ∈ l :=
  (sortBy_perm lt l).mem_iff

theorem lookup_mem {α β : Type} [BEq α] [LawfulBEq α] {l : List (α × β)}
    {k : α} {v : β} (h : l.lookup k = some v) : (k, v) ∈ l := by
  induction l with
  | nil => simp [List.lookup] at h
  | cons p t ih =>
    rw [List.lookup] at h
    by_cases hk : k == p.1
    · rw [hk] at h
      simp only [Option.some.injEq] at h
      have h1 : k = p.1 := eq_of_beq hk
      cases p
      simp_all
    · simp only [Bool.not_eq_true] at hk
      rw [hk] at h
      exact List.mem_cons_of_mem _ (ih h)

theorem pairwise_insertBy {α : Type} (lt : α → α → Bool)
    (has : ∀ a b, lt a b = true → lt b a = false)
    (hnt : ∀ a b c, lt b a = false → lt c b = false → lt c a = false)
    (a : α) (l : List α)
    (hl : l.Pairwise (fun x y => lt y x = false)) :
    (insertBy lt a l).Pairwise (fun x y => lt y x = false) := by
  induction l with
  | nil => simp [insertBy]
  | cons b bs ih =>
    rw [List.pairwise_cons] at hl
    simp only [insertBy]
    split
    · rename_i hba
      rw [List.pairwise_cons]
      constructor
      · intro x hx
        rw [(insertBy_perm lt a bs).mem_iff] at hx
        rcases List.mem_cons.mp hx with hxa | hxb
        · subst hxa
          exact has b x hba
        · exact hl.1 x hxb
      · exact ih hl.2
    · rename_i hba
      rw [Bool.not_eq_true] at hba
      rw [List.pairwise_cons]
      constructor
      · intro x hx
        rcases List.mem_cons.mp hx with hxb | hxbs
        · subst hxb; exact hba
        · exact hnt a b x hba (hl.1 x hxbs)
      · rw [List.pairwise_cons]
        exact ⟨hl.1, hl.2⟩

theorem pairwise_sortBy {α : Type} (lt : α → α → Bool)
    (has : ∀ a b, lt a b = true → lt b a = false)
    (hnt : ∀ a b c, lt b a = false → lt c b = false → lt c a = false)
    (l : List α) :
    (sortBy lt l).Pairwise (fun x y => lt y x = false) := by
  induction l with
  | nil => simp [sortBy]
  | cons a as ih => exact pairwise_insertBy lt has hnt a (sortBy lt as) ih

theorem listLt_trichotomy (a b : List Char) :
    listLt a b = true ∨ a = b ∨ listLt b a = true := by
  induction a generalizing b with
  | nil => cases b <;> simp [listLt]
  | cons x xs ih =>
    cases b with
    | nil => simp [listLt]
    | cons y ys =>
      rcases lt_trichotomy x y with hxy | hxy | hxy
      · left; simp [listLt, hxy]
      · subst hxy
        rcases ih ys with h | h | h
        · left; simp [listLt, h]
        · right; left; simp [h]
        · right; right; simp [listLt, h]
      · right; right; simp [listLt, hxy]

theorem listLt_irrefl (a : List Char) : listLt a a = false := by
  induction a with
  | nil => simp [listLt]
  | cons x xs ih => simp [listLt, ih]

theorem listLt_trans {a b c : List Char} (h1 : listLt a b = true)
    (h2 : listLt b c = true) : listLt a c = true := by
  induction c generalizing a b with
  | nil => simp [listLt] at h2
  | cons z zs ih =>
    cases b with
    | nil => simp [listLt] at h1
    | cons y ys =>
      cases a with
      | nil => simp [listLt]
      | cons x xs =>
        simp only [listLt, Bool.or_eq_true, Bool.and_eq_true, decide_eq_true_eq]
          at h1 h2 ⊢
        rcases h1 with h1 | ⟨h1e, h1r⟩
        · rcases h2 with h2 | ⟨h2e, h2r⟩
          · exact Or.inl (lt_trans h1 h2)
          · subst h2e; exact Or.inl h1
        · subst h1e
          rcases h2 with h2 | ⟨h2e, h2r⟩
          · exact Or.inl h2
          · subst h2e; exact Or.inr ⟨rfl, ih h1r h2r⟩

theorem listLt_asymm {a b : List Char} (h : listLt a b = true) :
    listLt b a = false := by
  by_contra hc
  rw [Bool.not_eq_false] at hc
  have := listLt_trans h hc
  rw [listLt_irrefl] at this
  exact Bool.false_ne_true this

theorem strLtB_trichotomy (a b : String) :
    strLtB a b = true ∨ a = b ∨ strLtB b a = true := by
  rcases listLt_trichotomy a.toList b.toList with h | h | h
  · exact Or.inl h
  · refine Or.inr (Or.inl ?_)
    cases a; cases b
    simp only [String.toList] at h
    rw [h]
  · exact Or.inr (Or.inr h)

theorem strLtB_trans {a b c : String} (h1 : strLtB a b = true)
    (h2 : strLtB b c = true) : strLtB a c = true :=
  listLt_trans h1 h2

theorem strLtB_irrefl (a : String) : strLtB a a = false :=
  listLt_irrefl a.toList

def lex2 {A B : Type} [DecidableEq A] (lt1 : A → A → Bool)
    (lt2 : B → B → Bool) (a b : A × B) : Bool :=
  lt1 a.1 b.1 || (a.1 = b.1 && lt2 a.2 b.2)

theorem lex2_trans {A B : Type} [DecidableEq A] {lt1 : A → A → Bool}
    {lt2 : B → B → Bool}
    (h1 : ∀ x y z, lt1 x y = true → lt1 y z = true → lt1 x z = true)
    (h2 : ∀ x y z, lt2 x y = true → lt2 y z = true → lt2 x z = true) :
    ∀ x y z, lex2 lt1 lt2 x y = true → lex2 lt1 lt2 y z = true →
      lex2 lt1 lt2 x z = true := by
  intro x y z hxy hyz
  simp only [lex2, Bool.or_eq_true, Bool.and_eq_true, decide_eq_true_eq]
    at hxy hyz ⊢
  rcases hxy with hxy | ⟨hxe, hxy2⟩
  · rcases hyz with hyz | ⟨hye, hyz2⟩
    · exact Or.inl (h1 _ _ _ hxy hyz)
    · rw [hye] at hxy; exact Or.inl hxy
  · rcases hyz with hyz | ⟨hye, hyz2⟩
    · rw [hxe]; exact Or.inl hyz
    · exact Or.inr ⟨hxe.trans hye, h2 _ _ _ hxy2 hyz2⟩

theorem lex2_irrefl {A B : Type} [DecidableEq A] {lt1 : A → A → Bool}
    {lt2 : B → B → Bool}
    (h1 : ∀ x, lt1 x x = false) (h2 : ∀ x, lt2 x x = false) :
    ∀ x, lex2 lt1 lt2 x x = false := by
  intro x
  simp [lex2, h1, h2]

theorem lex2_trichotomy {A B : Type} [DecidableEq A] [DecidableEq B]
    {lt1 : A → A → Bool} {lt2 : B → B → Bool}
    (h1 : ∀ x y, lt1 x y = true ∨ x = y ∨ lt1 y x = true)
    (h2 : ∀ x y, lt2 x y = true ∨ x = y ∨ lt2 y x = true) :
    ∀ x y, lex2 lt1 lt2 x y = true ∨ x = y ∨ lex2 lt1 lt2 y x = true := by
  intro x y
  simp only [lex2, Bool.or_eq_true, Bool.and_eq_true, decide_eq_true_eq]
  rcases h1 x.1 y.1 with h | h | h
  · exact Or.inl (Or.inl h)
  · rcases h2 x.2 y.2 with g | g | g
    · exact Or.inl (Or.inr ⟨h, g⟩)
    · exact Or.inr (Or.inl (Prod.ext h g))
    · exact Or.inr (Or.inr (Or.inr ⟨h.symm, g⟩))
  · exact Or.inr (Or.inr (Or.inl h))

theorem asym_of_strict {A : Type} {lt : A → A → Bool}
    (htrans : ∀ x y z, lt x y = true → lt y z = true → lt x z = true)
    (hirr : ∀ x, lt x x = false) :
    ∀ x y, lt x y = true → lt y x = false := by
  intro x y h
  by_contra hc
  rw [Bool.not_eq_false] at hc
  have := htrans x y x h hc
  rw [hirr] at this
  exact Bool.false_ne_true this

theorem negtrans_of_strict {A : Type} {lt : A → A → Bool}
    (htrans : ∀ x y z, lt x y = true → lt y z = true → lt x z = true)
    (htri : ∀ x y, lt x y = true ∨ x = y ∨ lt y x = true) :
    ∀ x y z, lt y x = false → lt z y = false → lt z x = false := by
  intro x y z hyx hzy
  by_contra hc
  rw [Bool.not_eq_false] at hc
  rcases htri x y with h | h | h
  · have := htrans z x y hc h
    rw [hzy] at this
    exact Bool.false_ne_true this
  · subst h
    rw [hzy] at hc
    exact Bool.false_ne_true hc
  · rw [hyx] at h
    exact Bool.false_ne_true h

def intLtB (a b : Int) : Bool := a < b

theorem intLtB_trans :
    ∀ x y z : Int, intLtB x y = true → intLtB y z = true →
      intLtB x z = true := by
  intro x y z h1 h2
  simp only [intLtB, decide_eq_true_eq] at h1 h2 ⊢
  omega

theorem intLtB_irrefl : ∀ x : Int, intLtB x x = false := by
  intro x; simp [intLtB]

theorem intLtB_trichotomy :
    ∀ x y : Int, intLtB x y = true ∨ x = y ∨ intLtB y x = true := by
  intro x y
  simp only [intLtB, decide_eq_true_eq]
  omega

theorem strLtB_trans3 :
    ∀ x y z : String, strLtB x y = true → strLtB y z = true →
      strLtB x z = true :=
  fun _ _ _ h1 h2 => strLtB_trans h1 h2

theorem keyLtB_eq_lex2 : keyLtB = lex2 strLtB strLtB := rfl

theorem keyLtB_trans :
    ∀ x y z, keyLtB x y = true → keyLtB y z = true → keyLtB x z = true := by
  rw [keyLtB_eq_lex2]
  exact lex2_trans strLtB_trans3 strLtB_trans3

theorem keyLtB_irrefl : ∀ x, keyLtB x x = false := by
  rw [keyLtB_eq_lex2]
  exact lex2_irrefl strLtB_irrefl strLtB_irrefl

theorem keyLtB_trichotomy :
    ∀ x y, keyLtB x y = true ∨ x = y ∨ keyLtB y x = true := by
  rw [keyLtB_eq_lex2]
  exact lex2_trichotomy strLtB_trichotomy strLtB_trichotomy

def phase3Key (x : LItem) : String × Int × String :=
  (x.event_date, seqOf x, x.agenda_number)

theorem phase3Lt_eq_lex2 (x y : LItem) :
    phase3Lt x y =
      lex2 strLtB (lex2 intLtB strLtB) (phase3Key x) (phase3Key y) := rfl

theorem phase3Lt_asymm : ∀ x y, phase3Lt x y = true → phase3Lt y x = false := by
  intro x y h
  rw [phase3Lt_eq_lex2] at h ⊢
  exact asym_of_strict
    (lex2_trans strLtB_trans3 (lex2_trans intLtB_trans strLtB_trans3))
    (lex2_irrefl strLtB_irrefl (lex2_irrefl intLtB_irrefl strLtB_irrefl))
    _ _ h

theorem phase3Lt_negtrans :
    ∀ x y z, phase3Lt y x = false → phase3Lt z y = false →
      phase3Lt z x = false := by
  intro x y z h1 h2
  rw [phase3Lt_eq_lex2] at h1 h2 ⊢
  exact negtrans_of_strict
    (lex2_trans strLtB_trans3 (lex2_trans intLtB_trans strLtB_trans3))
    (lex2_trichotomy strLtB_trichotomy
      (lex2_trichotomy intLtB_trichotomy strLtB_trichotomy))
    _ _ _ h1 h2

theorem strLtB_negtrans :
    ∀ x y z : String, strLtB y x = false → strLtB z y = false →
      strLtB z x = false :=
  negtrans_of_strict strLtB_trans3 strLtB_trichotomy

theorem meetingDateGt_asymm :
    ∀ x y, meetingDateGt x y = true → meetingDateGt y x = false :=
  fun _ _ h => listLt_asymm h

theorem meetingDateGt_negtrans :
    ∀ x y z, meetingDateGt y x = false → meetingDateGt z y = false →
      meetingDateGt z x = false := by
  intro x y z h1 h2
  exact strLtB_negtrans _ _ _ h2 h1

theorem keyLtB_asymm : ∀ x y, keyLtB x y = true → keyLtB y x = false :=
  asym_of_strict keyLtB_trans keyLtB_irrefl

theorem keyLtB_negtrans :
    ∀ x y z, keyLtB y x = false → keyLtB z y = false → keyLtB z x = false :=
  negtrans_of_strict keyLtB_trans keyLtB_trichotomy

theorem voteKeyGt_asymm :
    ∀ x y, voteKeyGt x y = true → voteKeyGt y x = false :=
  fun _ _ h => keyLtB_asymm _ _ h

theorem voteKeyGt_negtrans :
    ∀ x y z, voteKeyGt y x = false → voteKeyGt z y = false →
      voteKeyGt z x = false := by
  intro x y z h1 h2
  exact keyLtB_negtrans _ _ _ h2 h1

theorem foldl_count_field {S B : Type} (step : S → B → S) (f : S → Nat)
    (p : B → Bool)
    (hstep : ∀ s v, f (step s v) = f s + (if p v then 1 else 0)) :
    ∀ (l : List B) (s : S), f (l.foldl step s) = f s + l.countP p := by
  intro l
  induction l with
  | nil =>
    intro s
    rw [List.foldl_nil, List.countP_nil]
    omega
  | cons v t ih =>
    intro s
    rw [List.foldl_cons, ih, hstep, List.countP_cons]
    by_cases h : p v
    · simp only [h, if_true]
      omega
    · simp [h]

theorem statsStep_losing (name : String) (s : MemberStats) (v : VoteRec) :
    (statsStep name s v).votes_on_losing_side =
      s.votes_on_losing_side +
        (if (v.outcome = "PASS" ∧ v.member_votes.lookup name = some "NAY") ∨
            (v.outcome = "FAIL" ∧ v.member_votes.lookup name = some "AYE")
         then 1 else 0) := by
  rcases h : v.member_votes.lookup name with _ | mv
  · simp [statsStep, h]
  · simp only [statsStep, h]
    by_cases hpf : v.outcome = "PASS" ∨ v.outcome = "FAIL"
    · by_cases hl : (v.outcome = "PASS" ∧ mv = "NAY") ∨
          (v.outcome = "FAIL" ∧ mv = "AYE")
      · simp only [if_pos hpf, if_pos hl]
        (repeat' split) <;> simp_all
      · simp only [if_pos hpf, if_neg hl]
        (repeat' split) <;> simp_all
    · have hl : ¬ ((v.outcome = "PASS" ∧ mv = "NAY") ∨
          (v.outcome = "FAIL" ∧ mv = "AYE")) := by tauto
      simp only [if_neg hpf]
      (repeat' split) <;> simp_all

theorem statsStep_total (name : String) (s : MemberStats) (v : VoteRec) :
    (statsStep name s v).total =
      s.total + (if (v.member_votes.lookup name).isSome then 1 else 0) := by
  rcases h : v.member_votes.lookup name with _ | mv
  · simp [statsStep, h]
  · simp only [statsStep, h]
    (repeat' split) <;> simp_all

theorem statsStep_absent (name : String) (s : MemberStats) (v : VoteRec) :
    (statsStep name s v).absent_count =
      s.absent_count +
        (if v.member_votes.lookup name = some "ABSENT" then 1 else 0) := by
  rcases h : v.member_votes.lookup name with _ | mv
  · simp [statsStep, h]
  · simp only [statsStep, h]
    (repeat' split) <;> simp_all

theorem statsStep_abstain (name : String) (s : MemberStats) (v : VoteRec) :
    (statsStep name s v).abstain_count =
      s.abstain_count +
        (if v.member_votes.lookup name = some "ABSTAIN" then 1 else 0) := by
  rcases h : v.member_votes.lookup name with _ | mv
  · simp [statsStep, h]
  · simp only [statsStep, h]
    (repeat' split) <;> simp_all

theorem statsStep_recusal (name : String) (s : MemberStats) (v : VoteRec) :
    (statsStep name s v).recusal_count =
      s.recusal_count +
        (if v.member_votes.lookup name = some "RECUSAL" then 1 else 0) := by
  rcases h : v.member_votes.lookup name with _ | mv
  · simp [statsStep, h]
  · simp only [statsStep, h]
    (repeat' split) <;> simp_all

theorem statsStep_close (name : String) (s : MemberStats) (v : VoteRec) :
    (statsStep name s v).close_vote_dissents =
      s.close_vote_dissents +
        (if ((v.outcome = "PASS" ∧ v.member_votes.lookup name = some "NAY") ∨
             (v.outcome = "FAIL" ∧ v.member_votes.lookup name = some "AYE")) ∧
            ((v.ayes : Int) - (v.noes : Int)).natAbs ≤ 2
         then 1 else 0) := by
  rcases h : v.member_votes.lookup name with _ | mv
  · simp [statsStep, h]
  · simp only [statsStep, h]
    by_cases hpf : v.outcome = "PASS" ∨ v.outcome = "FAIL"
    · by_cases hl : (v.outcome = "PASS" ∧ mv = "NAY") ∨
          (v.outcome = "FAIL" ∧ mv = "AYE")
      · simp only [if_pos hpf]
        (repeat' split) <;> simp_all
      · have hl2 : ¬ ((v.outcome = "PASS" ∧ some mv = some "NAY") ∨
            (v.outcome = "FAIL" ∧ some mv = some "AYE")) := by
          simp only [Option.some.injEq]
          exact hl
        simp only [if_pos hpf]
        (repeat' split) <;> simp_all
    · have hl : ¬ ((v.outcome = "PASS" ∧ mv = "NAY") ∨
          (v.outcome = "FAIL" ∧ mv = "AYE")) := by tauto
      simp only [if_neg hpf]
      (repeat' split) <;> simp_all

theorem member_stats_losing (votes : List VoteRec) (name : String) :
    (member_stats_counts votes name).votes_on_losing_side =
      votes.countP (fun v =>
        decide ((v.outcome = "PASS" ∧ v.member_votes.lookup name = some "NAY") ∨
          (v.outcome = "FAIL" ∧ v.member_votes.lookup name = some "AYE"))) := by
  have h := foldl_count_field (statsStep name)
    (fun s => s.votes_on_losing_side)
    (fun v =>
      decide ((v.outcome = "PASS" ∧ v.member_votes.lookup name = some "NAY") ∨
        (v.outcome = "FAIL" ∧ v.member_votes.lookup name = some "AYE")))
    (by
      intro s v
      dsimp only
      rw [statsStep_losing]
      congr 1
      simp)
    votes ⟨0, 0, 0, 0, 0, 0, 0, 0⟩
  simpa [member_stats_counts] using h

theorem member_stats_total (votes : List VoteRec) (name : String) :
    (member_stats_counts votes name).total =
      votes.countP (fun v => (v.member_votes.lookup name).isSome) := by
  have h := foldl_count_field (statsStep name) (fun s => s.total)
    (fun v => (v.member_votes.lookup name).isSome)
    (by intro s v; dsimp only; rw [statsStep_total])
    votes ⟨0, 0, 0, 0, 0, 0, 0, 0⟩
  simpa [member_stats_counts] using h

theorem member_stats_absent (votes : List VoteRec) (name : String) :
    (member_stats_counts votes name).absent_count =
      votes.countP (fun v =>
        decide (v.member_votes.lookup name = some "ABSENT")) := by
  have h := foldl_count_field (statsStep name) (fun s => s.absent_count)
    (fun v => decide (v.member_votes.lookup name = some "ABSENT"))
    (by
      intro s v
      dsimp only
      rw [statsStep_absent]
      congr 1
      simp)
    votes ⟨0, 0, 0, 0, 0, 0, 0, 0⟩
  simpa [member_stats_counts] using h

theorem member_stats_abstain (votes : List VoteRec) (name : String) :
    (member_stats_counts votes name).abstain_count =
      votes.countP (fun v =>
        decide (v.member_votes.lookup name = some "ABSTAIN")) := by
  have h := foldl_count_field (statsStep name) (fun s => s.abstain_count)
    (fun v => decide (v.member_votes.lookup name = some "ABSTAIN"))
    (by
      intro s v
      dsimp only
      rw [statsStep_abstain]
      congr 1
      simp)
    votes ⟨0, 0, 0, 0, 0, 0, 0, 0⟩
  simpa [member_stats_counts] using h

theorem member_stats_recusal (votes : List VoteRec) (name : String) :
    (member_stats_counts votes name).recusal_count =
      votes.countP (fun v =>
        decide (v.member_votes.lookup name = some "RECUSAL")) := by
  have h := foldl_count_field (statsStep name) (fun s => s.recusal_count)
    (fun v => decide (v.member_votes.lookup name = some "RECUSAL"))
    (by
      intro s v
      dsimp only
      rw [statsStep_recusal]
      congr 1
      simp)
    votes ⟨0, 0, 0, 0, 0, 0, 0, 0⟩
  simpa [member_stats_counts] using h

theorem member_stats_close (votes : List VoteRec) (name : String) :
    (member_stats_counts votes name).close_vote_dissents =
      votes.countP (fun v =>
        decide
          (((v.outcome = "PASS" ∧ v.member_votes.lookup name = some "NAY") ∨
            (v.outcome = "FAIL" ∧ v.member_votes.lookup name = some "AYE")) ∧
           ((v.ayes : Int) - (v.noes : Int)).natAbs ≤ 2)) := by
  have h := foldl_count_field (statsStep name)
    (fun s => s.close_vote_dissents)
    (fun v =>
      decide
        (((v.outcome = "PASS" ∧ v.member_votes.lookup name = some "NAY") ∨
          (v.outcome = "FAIL" ∧ v.member_votes.lookup name = some "AYE")) ∧
         ((v.ayes : Int) - (v.noes : Int)).natAbs ≤ 2))
    (by
      intro s v
      dsimp only
      rw [statsStep_close]
      congr 1
      simp)
    votes ⟨0, 0, 0, 0, 0, 0, 0, 0⟩
  simpa [member_stats_counts] using h

theorem alignStep_shared (m1 m2 : String) (acc : Nat × Nat) (v : VoteRec) :
    (alignStep m1 m2 acc v).1 =
      acc.1 +
        (if (v.member_votes.lookup m1 = some "AYE" ∨
             v.member_votes.lookup m1 = some "NAY") ∧
            (v.member_votes.lookup m2 = some "AYE" ∨
             v.member_votes.lookup m2 = some "NAY")
         then 1 else 0) := by
  simp only [alignStep]
  (repeat' split) <;> simp_all

theorem alignStep_agree (m1 m2 : String) (acc : Nat × Nat) (v : VoteRec) :
    (alignStep m1 m2 acc v).2 =
      acc.2 +
        (if ((v.member_votes.lookup m1 = some "AYE" ∨
              v.member_votes.lookup m1 = some "NAY") ∧
             (v.member_votes.lookup m2 = some "AYE" ∨
              v.member_votes.lookup m2 = some "NAY")) ∧
            v.member_votes.lookup m1 = v.member_votes.lookup m2
         then 1 else 0) := by
  simp only [alignStep]
  (repeat' split) <;> simp_all

theorem align_counts_shared (votes : List VoteRec) (m1 m2 : String) :
    (align_counts votes m1 m2).1 =
      votes.countP (fun v =>
        decide ((v.member_votes.lookup m1 = some "AYE" ∨
                 v.member_votes.lookup m1 = some "NAY") ∧
                (v.member_votes.lookup m2 = some "AYE" ∨
                 v.member_votes.lookup m2 = some "NAY"))) := by
  have h := foldl_count_field (alignStep m1 m2) (fun a => a.1)
    (fun v =>
      decide ((v.member_votes.lookup m1 = some "AYE" ∨
               v.member_votes.lookup m1 = some "NAY") ∧
              (v.member_votes.lookup m2 = some "AYE" ∨
               v.member_votes.lookup m2 = some "NAY")))
    (by
      intro s v
      dsimp only
      rw [alignStep_shared]
      congr 1
      simp)
    votes (0, 0)
  simpa [align_counts] using h

theorem align_counts_agree (votes : List VoteRec) (m1 m2 : String) :
    (align_counts votes m1 m2).2 =
      votes.countP (fun v =>
        decide (((v.member_votes.lookup m1 = some "AYE" ∨
                  v.member_votes.lookup m1 = some "NAY") ∧
                 (v.member_votes.lookup m2 = some "AYE" ∨
                  v.member_votes.lookup m2 = some "NAY")) ∧
                v.member_votes.lookup m1 = v.member_votes.lookup m2)) := by
  have h := foldl_count_field (alignStep m1 m2) (fun a => a.2)
    (fun v =>
      decide (((v.member_votes.lookup m1 = some "AYE" ∨
                v.member_votes.lookup m1 = some "NAY") ∧
               (v.member_votes.lookup m2 = some "AYE" ∨
                v.member_votes.lookup m2 = some "NAY")) ∧
              v.member_votes.lookup m1 = v.member_votes.lookup m2))
    (by
      intro s v
      dsimp only
      rw [alignStep_agree]
      congr 1
      simp)
    votes (0, 0)
  simpa [align_counts] using h

theorem stripDotsFuel_spec :
    ∀ (n : Nat) (l : List Char), l.length ≤ n →
      stripDotsFuel n (String.mk l.reverse) =
        String.mk ((l.dropWhile (fun c => c = '.')).reverse) := by
  intro n
  induction n with
  | zero =>
    intro l hl
    have : l = [] := List.length_eq_zero.mp (Nat.le_zero.mp hl)
    subst this
    rfl
  | succ n ih =>
    intro l hl
    cases l with
    | nil => rfl
    | cons c cs =>
      have hrev : (c :: cs).reverse = cs.reverse ++ [c] := by
        simp [List.reverse_cons]
      rw [hrev]
      show stripDotsFuel (n + 1) (String.mk (cs.reverse ++ [c])) = _
      rw [stripDotsFuel]
      have htl : (String.mk (cs.reverse ++ [c])).toList = cs.reverse ++ [c] :=
        rfl
      rw [htl, List.getLast?_concat, List.dropLast_concat]
      by_cases hc : c = '.'
      · subst hc
        rw [if_pos rfl]
        have := ih cs (Nat.le_of_succ_le_succ hl)
        rw [this]
        simp [List.dropWhile]
      · rw [if_neg (by simp [hc])]
        simp [List.dropWhile, hc, List.reverse_cons]

theorem stripDotsFuel_eq_pyRstrip (t : String) :
    stripDotsFuel t.toList.length t = pyRstrip '.' t := by
  obtain ⟨l⟩ := t
  show stripDotsFuel l.length (String.mk l) = _
  calc stripDotsFuel l.length (String.mk l)
      = stripDotsFuel l.reverse.length (String.mk l.reverse.reverse) := by
        rw [List.reverse_reverse, List.length_reverse]
    _ = String.mk ((l.reverse.dropWhile (fun c => c = '.')).reverse) :=
        stripDotsFuel_spec _ _ (Nat.le_refl _)
    _ = pyRstrip '.' (String.mk l) := rfl

/-! ## Claim theorems -/

/-- Claim C4, counterexample: the claim says the key normalizer strips
ONE trailing period, but `normalize_agenda_number` strips ALL trailing
periods; on the input "62.." the code yields "62" while the claim's
rule yields "62.". -/
theorem normalize_agenda_number_one_period_false :
    normalize_agenda_number "62.." = "62" ∧
    normalize_agenda_number_claim "62.." = "62." ∧
    normalize_agenda_number "62.." ≠ normalize_agenda_number_claim "62.." := by
  refine ⟨by decide, by decide, by decide⟩

/-- Claim C4 as amended: for every raw agenda-number string the key
normalizer trims surrounding whitespace, strips ALL trailing periods,
and then, if the remainder is entirely digits, strips leading zeros by
integer round-trip; empty input yields empty output; it never raises
(it is a total function).  In particular normalize("62.") =
normalize("62") = normalize("062") = "62" and normalize("") = "". -/
theorem normalize_agenda_number_amended_ok :
    (∀ raw, normalize_agenda_number raw =
      normalize_agenda_number_amended raw) ∧
    normalize_agenda_number "62." = "62" ∧
    normalize_agenda_number "62" = "62" ∧
    normalize_agenda_number "062" = "62" ∧
    normalize_agenda_number "" = "" := by
  refine ⟨?_, by decide, by decide, by decide, by decide⟩
  intro raw
  simp only [normalize_agenda_number, normalize_agenda_number_amended,
    stripDotsFuel_eq_pyRstrip]

/-- Claim C5: the vote codec returns one normalized choice out of
{AYE, NAY, ABSENT, ABSTAIN} or the "not a participant" sentinel `none`
and never raises (it is a total function); the empty string and the
literal "N/A" token map to `none`; every token outside the fixed
mapping table also maps to `none` (fail-open); and
codec("YES") = AYE and codec("ABSNT_CB") = ABSENT. -/
theorem map_vote_fail_open :
    (∀ raw, map_vote raw = none ∨ map_vote raw = some "AYE" ∨
      map_vote raw = some "NAY" ∨ map_vote raw = some "ABSENT" ∨
      map_vote raw = some "ABSTAIN") ∧
    map_vote "" = none ∧
    map_vote "N/A" = none ∧
    (∀ raw, VOTE_MAP.lookup (pyUpper (pyStrip raw)) = none →
      map_vote raw = none) ∧
    map_vote "YES" = some "AYE" ∧
    map_vote "ABSNT_CB" = some "ABSENT" := by
  refine ⟨?_, by decide, by decide, ?_, by decide, by decide⟩
  · intro raw
    have h : ∀ v : String, VOTE_MAP.lookup v = none ∨
        VOTE_MAP.lookup v = some "AYE" ∨ VOTE_MAP.lookup v = some "NAY" ∨
        VOTE_MAP.lookup v = some "ABSENT" ∨
        VOTE_MAP.lookup v = some "ABSTAIN" := by
      intro v
      simp only [VOTE_MAP, List.lookup]
      (repeat' split) <;> simp
    by_cases hc : pyUpper (pyStrip raw) = "" ∨ pyUpper (pyStrip raw) = "N/A"
    · simp [map_vote, hc]
    · simpa [map_vote, hc] using h (pyUpper (pyStrip raw))
  · intro raw h
    by_cases hc : pyUpper (pyStrip raw) = "" ∨ pyUpper (pyStrip raw) = "N/A"
    · simp [map_vote, hc]
    · simp [map_vote, hc, h]

/-- Witness for `map_vote_fail_open`: the unmapped token "XYZ" resolves
to "not a participant". -/
theorem map_vote_fail_open_witness : map_vote "XYZ" = none :=
  map_vote_fail_open.2.2.2.1 "XYZ" (by decide)

/-- Claim C2, counterexample: the claim (following the spec) checks
"DENIED or DID NOT PASS" before DEFERRED in the passed=0 branch, but
`derive_outcome` checks DID NOT PASS only after DEFERRED and DELETED:
on (passed="0", final action "DID NOT PASS DEFERRED") the code returns
CONTINUED while the claim's rule order returns FAIL. -/
theorem derive_outcome_claim_order_false :
    derive_outcome "0" "DID NOT PASS DEFERRED" "" = "CONTINUED" ∧
    derive_outcome_claim "0" "DID NOT PASS DEFERRED" "" = "FAIL" ∧
    derive_outcome "0" "DID NOT PASS DEFERRED" "" ≠
      derive_outcome_claim "0" "DID NOT PASS DEFERRED" "" := by
  refine ⟨by decide, by decide, by decide⟩

/-- Claim C2 as amended: the outcome classifier applies its rules in
order with the first match winning — passed flag "1" gives PASS;
passed flag "0" gives FAIL unless the final-action text contains
DEFERRED (CONTINUED) or DELETED (WITHDRAWN), with DENIED checked first
(FAIL) and DID NOT PASS checked last (FAIL, same as the default);
with no flag, the approval keyword set (including AMENDED) gives PASS,
the denial set gives FAIL, DEFERRED/HELD give CONTINUED,
DELETED/WITHDRAWN give WITHDRAWN, REMANDED gives CONTINUED, TABLED
gives TABLED; then matter-status APPROVED gives PASS and DEFERRED
gives CONTINUED; and the default with no signal at all is PASS.
In particular classify("1", *) = PASS,
classify("0", "ITEM DENIED") = FAIL,
classify("", "MOTION APPROVED") = PASS and classify("", "") = PASS. -/
theorem derive_outcome_precedence :
    (∀ p fa ms, pyStrip p = "1" → derive_outcome p fa ms = "PASS") ∧
    (∀ p fa ms, pyStrip p = "0" →
      containsStr (pyUpper (pyStrip fa)) "DENIED" = true →
      derive_outcome p fa ms = "FAIL") ∧
    (∀ p fa ms, pyStrip p = "0" →
      containsStr (pyUpper (pyStrip fa)) "DENIED" = false →
      containsStr (pyUpper (pyStrip fa)) "DEFERRED" = true →
      derive_outcome p fa ms = "CONTINUED") ∧
    (∀ p fa ms, pyStrip p = "0" →
      containsStr (pyUpper (pyStrip fa)) "DENIED" = false →
      containsStr (pyUpper (pyStrip fa)) "DEFERRED" = false →
      containsStr (pyUpper (pyStrip fa)) "DELETED" = true →
      derive_outcome p fa ms = "WITHDRAWN") ∧
    (∀ p fa ms, pyStrip p = "0" →
      containsStr (pyUpper (pyStrip fa)) "DENIED" = false →
      containsStr (pyUpper (pyStrip fa)) "DEFERRED" = false →
      containsStr (pyUpper (pyStrip fa)) "DELETED" = false →
      derive_outcome p fa ms = "FAIL") ∧
    (∀ p fa ms, pyStrip p ≠ "1" → pyStrip p ≠ "0" →
      (["APPROVED", "ADOPTED", "PASSED", "CONFIRMED", "ACCEPTED",
        "GRANTED", "SUSTAINED", "RATIFIED"].any
          (fun k => containsStr (pyUpper (pyStrip fa)) k) = true ∨
       containsStr (pyUpper (pyStrip fa)) "AMENDED" = true) →
      derive_outcome p fa ms = "PASS") ∧
    (∀ p fa ms, pyStrip p ≠ "1" → pyStrip p ≠ "0" →
      (["APPROVED", "ADOPTED", "PASSED", "CONFIRMED", "ACCEPTED",
        "GRANTED", "SUSTAINED", "RATIFIED"].any
          (fun k => containsStr (pyUpper (pyStrip fa)) k) = false) →
      containsStr (pyUpper (pyStrip fa)) "AMENDED" = false →
      (["DENIED", "REJECTED", "DEFEATED", "FAILED"].any
          (fun k => containsStr (pyUpper (pyStrip fa)) k) = true) →
      derive_outcome p fa ms = "FAIL") ∧
    (∀ p fa ms, pyStrip p ≠ "1" → pyStrip p ≠ "0" →
      (["APPROVED", "ADOPTED", "PASSED", "CONFIRMED", "ACCEPTED",
        "GRANTED", "SUSTAINED", "RATIFIED"].any
          (fun k => containsStr (pyUpper (pyStrip fa)) k) = false) →
      containsStr (pyUpper (pyStrip fa)) "AMENDED" = false →
      (["DENIED", "REJECTED", "DEFEATED", "FAILED"].any
          (fun k => containsStr (pyUpper (pyStrip fa)) k) = false) →
      (containsStr (pyUpper (pyStrip fa)) "DEFERRED" = true ∨
       containsStr (pyUpper (pyStrip fa)) "HELD" = true) →
      derive_outcome p fa ms = "CONTINUED") ∧
    (∀ p fa ms, pyStrip p ≠ "1" → pyStrip p ≠ "0" →
      (["APPROVED", "ADOPTED", "PASSED", "CONFIRMED", "ACCEPTED",
        "GRANTED", "SUSTAINED", "RATIFIED"].any
          (fun k => containsStr (pyUpper (pyStrip fa)) k) = false) →
      containsStr (pyUpper (pyStrip fa)) "AMENDED" = false →
      (["DENIED", "REJECTED", "DEFEATED", "FAILED"].any
          (fun k => containsStr (pyUpper (pyStrip fa)) k) = false) →
      containsStr (pyUpper (pyStrip fa)) "DEFERRED" = false →
      containsStr (pyUpper (pyStrip fa)) "HELD" = false →
      (containsStr (pyUpper (pyStrip fa)) "DELETED" = true ∨
       containsStr (pyUpper (pyStrip fa)) "WITHDRAWN" = true) →
      derive_outcome p fa ms = "WITHDRAWN") ∧
    (∀ p fa ms, pyStrip p ≠ "1" → pyStrip p ≠ "0" →
      (["APPROVED", "ADOPTED", "PASSED", "CONFIRMED", "ACCEPTED",
        "GRANTED", "SUSTAINED", "RATIFIED"].any
          (fun k => containsStr (pyUpper (pyStrip fa)) k) = false) →
      containsStr (pyUpper (pyStrip fa)) "AMENDED" = false →
      (["DENIED", "REJECTED", "DEFEATED", "FAILED"].any
          (fun k => containsStr (pyUpper (pyStrip fa)) k) = false) →
      containsStr (pyUpper (pyStrip fa)) "DEFERRED" = false →
      containsStr (pyUpper (pyStrip fa)) "HELD" = false →
      containsStr (pyUpper (pyStrip fa)) "DELETED" = false →
      containsStr (pyUpper (pyStrip fa)) "WITHDRAWN" = false →
      containsStr (pyUpper (pyStrip fa)) "REMANDED" = true →
      derive_outcome p fa ms = "CONTINUED") ∧
    (∀ p fa ms, pyStrip p ≠ "1" → pyStrip p ≠ "0" →
      (["APPROVED", "ADOPTED", "PASSED", "CONFIRMED", "ACCEPTED",
        "GRANTED", "SUSTAINED", "RATIFIED"].any
          (fun k => containsStr (pyUpper (pyStrip fa)) k) = false) →
      containsStr (pyUpper (pyStrip fa)) "AMENDED" = false →
      (["DENIED", "REJECTED", "DEFEATED", "FAILED"].any
          (fun k => containsStr (pyUpper (pyStrip fa)) k) = false) →
      containsStr (pyUpper (pyStrip fa)) "DEFERRED" = false →
      containsStr (pyUpper (pyStrip fa)) "HELD" = false →
      containsStr (pyUpper (pyStrip fa)) "DELETED" = false →
      containsStr (pyUpper (pyStrip fa)) "WITHDRAWN" = false →
      containsStr (pyUpper (pyStrip fa)) "REMANDED" = false →
      containsStr (pyUpper (pyStrip fa)) "TABLED" = true →
      derive_outcome p fa ms = "TABLED") ∧
    (∀ p fa ms, pyStrip p ≠ "1" → pyStrip p ≠ "0" →
      (["APPROVED", "ADOPTED", "PASSED", "CONFIRMED", "ACCEPTED",
        "GRANTED", "SUSTAINED", "RATIFIED"].any
          (fun k => containsStr (pyUpper (pyStrip fa)) k) = false) →
      containsStr (pyUpper (pyStrip fa)) "AMENDED" = false →
      (["DENIED", "REJECTED", "DEFEATED", "FAILED"].any
          (fun k => containsStr (pyUpper (pyStrip fa)) k) = false) →
      containsStr (pyUpper (pyStrip fa)) "DEFERRED" = false →
      containsStr (pyUpper (pyStrip fa)) "HELD" = false →
      containsStr (pyUpper (pyStrip fa)) "DELETED" = false →
      containsStr (pyUpper (pyStrip fa)) "WITHDRAWN" = false →
      containsStr (pyUpper (pyStrip fa)) "REMANDED" = false →
      containsStr (pyUpper (pyStrip fa)) "TABLED" = false →
      containsStr (pyUpper (pyStrip ms)) "APPROVED" = true →
      derive_outcome p fa ms = "PASS") ∧
    (∀ p fa ms, pyStrip p ≠ "1" → pyStrip p ≠ "0" →
      (["APPROVED", "ADOPTED", "PASSED", "CONFIRMED", "ACCEPTED",
        "GRANTED", "SUSTAINED", "RATIFIED"].any
          (fun k => containsStr (pyUpper (pyStrip fa)) k) = false) →
      containsStr (pyUpper (pyStrip fa)) "AMENDED" = false →
      (["DENIED", "REJECTED", "DEFEATED", "FAILED"].any
          (fun k => containsStr (pyUpper (pyStrip fa)) k) = false) →
      containsStr (pyUpper (pyStrip fa)) "DEFERRED" = false →
      containsStr (pyUpper (pyStrip fa)) "HELD" = false →
      containsStr (pyUpper (pyStrip fa)) "DELETED" = false →
      containsStr (pyUpper (pyStrip fa)) "WITHDRAWN" = false →
      containsStr (pyUpper (pyStrip fa)) "REMANDED" = false →
      containsStr (pyUpper (pyStrip fa)) "TABLED" = false →
      containsStr (pyUpper (pyStrip ms)) "APPROVED" = false →
      containsStr (pyUpper (pyStrip ms)) "DEFERRED" = true →
      derive_outcome p fa ms = "CONTINUED") ∧
    (∀ p fa ms, pyStrip p ≠ "1" → pyStrip p ≠ "0" →
      (["APPROVED", "ADOPTED", "PASSED", "CONFIRMED", "ACCEPTED",
        "GRANTED", "SUSTAINED", "RATIFIED"].any
          (fun k => containsStr (pyUpper (pyStrip fa)) k) = false) →
      containsStr (pyUpper (pyStrip fa)) "AMENDED" = false →
      (["DENIED", "REJECTED", "DEFEATED", "FAILED"].any
          (fun k => containsStr (pyUpper (pyStrip fa)) k) = false) →
      containsStr (pyUpper (pyStrip fa)) "DEFERRED" = false →
      containsStr (pyUpper (pyStrip fa)) "HELD" = false →
      containsStr (pyUpper (pyStrip fa)) "DELETED" = false →
      containsStr (pyUpper (pyStrip fa)) "WITHDRAWN" = false →
      containsStr (pyUpper (pyStrip fa)) "REMANDED" = false →
      containsStr (pyUpper (pyStrip fa)) "TABLED" = false →
      containsStr (pyUpper (pyStrip ms)) "APPROVED" = false →
      containsStr (pyUpper (pyStrip ms)) "DEFERRED" = false →
      derive_outcome p fa ms = "PASS") ∧
    derive_outcome "0" "ITEM DENIED" "" = "FAIL" ∧
    derive_outcome "" "MOTION APPROVED" "" = "PASS" ∧
    derive_outcome "" "" "" = "PASS" := by
  refine ⟨?_, ?_, ?_, ?_, ?_, ?_, ?_, ?_, ?_, ?_, ?_, ?_, ?_, ?_,
    by decide, by decide, by decide⟩
  · intro p fa ms h1
    simp [derive_outcome, h1]
  · intro p fa ms h1 h2
    simp [derive_outcome, h1, h2]
  · intro p fa ms h1 h2 h3
    simp [derive_outcome, h1, h2, h3]
  · intro p fa ms h1 h2 h3 h4
    simp [derive_outcome, h1, h2, h3, h4]
  · intro p fa ms h1 h2 h3 h4
    simp [derive_outcome, h1, h2, h3, h4]
  · intro p fa ms h1 h2 h3
    rcases h3 with h3 | h3 <;> simp [derive_outcome, h1, h2, h3]
  · intro p fa ms h1 h2 h3 h4 h5
    simp [derive_outcome, h1, h2, h3, h4, h5]
  · intro p fa ms h1 h2 h3 h4 h5 h6
    rcases h6 with h6 | h6 <;> simp [derive_outcome, h1, h2, h3, h4, h5, h6]
  · intro p fa ms h1 h2 h3 h4 h5 h6 h7 h8
    rcases h8 with h8 | h8 <;>
      simp [derive_outcome, h1, h2, h3, h4, h5, h6, h7, h8]
  · intro p fa ms h1 h2 h3 h4 h5 h6 h7 h8 h9 h10
    simp [derive_outcome, h1, h2, h3, h4, h5, h6, h7, h8, h9, h10]
  · intro p fa ms h1 h2 h3 h4 h5 h6 h7 h8 h9 h10 h11
    simp [derive_outcome, h1, h2, h3, h4, h5, h6, h7, h8, h9, h10, h11]
  · intro p fa ms h1 h2 h3 h4 h5 h6 h7 h8 h9 h10 h11 h12
    simp [derive_outcome, h1, h2, h3, h4, h5, h6, h7, h8, h9, h10, h11, h12]
  · intro p fa ms h1 h2 h3 h4 h5 h6 h7 h8 h9 h10 h11 h12 h13
    simp [derive_outcome, h1, h2, h3, h4, h5, h6, h7, h8, h9, h10, h11, h12,
      h13]
  · intro p fa ms h1 h2 h3 h4 h5 h6 h7 h8 h9 h10 h11 h12 h13
    simp [derive_outcome, h1, h2, h3, h4, h5, h6, h7, h8, h9, h10, h11, h12,
      h13]

/-- Witness for `derive_outcome_precedence`: a passed flag of "1" gives
PASS, and a bare DEFERRED final action with no flag gives CONTINUED. -/
theorem derive_outcome_precedence_witness :
    derive_outcome "1" "ANYTHING" "X" = "PASS" ∧
    derive_outcome "" "DEFERRED" "" = "CONTINUED" :=
  ⟨derive_outcome_precedence.1 "1" "ANYTHING" "X" (by decide),
   derive_outcome_precedence.2.2.2.2.2.2.2.1 "" "DEFERRED" ""
     (by decide) (by decide) (by decide) (by decide) (by decide)
     (Or.inl (by decide))⟩

/-- Claim C3, counterexample: the claim's dissent-rate denominator is
the number of records where the member participated with a choice
other than ABSENT/ABSTAIN AND whose outcome is PASS or FAIL, but
`_compute_member_stats` subtracts the count of participated
special-outcome records from the participation count, so a member who
is ABSENT on a CONTINUED record is subtracted twice.  On a corpus with
one losing PASS vote, one winning PASS vote, and one CONTINUED record
with the member ABSENT, the code computes a dissent rate of 100 while
the claim's formula gives 50. -/
theorem dissent_rate_claim_false :
    dissent_rate [sv1, sv2, sv3] "M" = 100 ∧
    dissent_rate_claim [sv1, sv2, sv3] "M" = 50 ∧
    dissent_rate [sv1, sv2, sv3] "M" ≠ dissent_rate_claim [sv1, sv2, sv3] "M" := by
  have hc : member_stats_counts [sv1, sv2, sv3] "M" = ⟨3, 1, 1, 0, 1, 0, 1, 1⟩ :=
    by decide
  have hs : special_outcomes [sv1, sv2, sv3] "M" = 1 := by decide
  have hdc : dissent_denom_claim [sv1, sv2, sv3] "M" = 2 := by decide
  have h1 : dissent_rate [sv1, sv2, sv3] "M" = 100 := by
    norm_num [dissent_rate, dissent_denom, pyRound1, roundHalfEven, hc, hs]
  have h2 : dissent_rate_claim [sv1, sv2, sv3] "M" = 50 := by
    norm_num [dissent_rate_claim, hc, hdc]
  refine ⟨h1, h2, ?_⟩
  rw [h1, h2]
  norm_num

/-- Claim C3 as amended: a vote is on the losing side exactly when the
outcome is PASS and the choice is NAY, or the outcome is FAIL and the
choice is AYE; a close dissent is a losing-side vote whose absolute
aye/nay margin is at most 2; the dissent-rate denominator is the
participation count excluding ABSENT/ABSTAIN choices MINUS the count
of participated records whose outcome is neither PASS nor FAIL, set to
1 whenever that difference is not positive; and the dissent rate is
100 times the losing-side count divided by that denominator (rounded
to one decimal, half to even).  In particular a member whose AYE votes
are exactly the PASS records and who never voted NAY has dissent
rate 0. -/
theorem dissent_rate_amended_ok :
    (∀ (votes : List VoteRec) (name : String),
      (member_stats_counts votes name).votes_on_losing_side =
        votes.countP (fun v =>
          decide ((v.outcome = "PASS" ∧
              v.member_votes.lookup name = some "NAY") ∨
            (v.outcome = "FAIL" ∧
              v.member_votes.lookup name = some "AYE")))) ∧
    (∀ (votes : List VoteRec) (name : String),
      (member_stats_counts votes name).close_vote_dissents =
        votes.countP (fun v =>
          decide
            (((v.outcome = "PASS" ∧
                v.member_votes.lookup name = some "NAY") ∨
              (v.outcome = "FAIL" ∧
                v.member_votes.lookup name = some "AYE")) ∧
             ((v.ayes : Int) - (v.noes : Int)).natAbs ≤ 2))) ∧
    (∀ (votes : List VoteRec) (name : String),
      dissent_denom votes name =
        (if (votes.countP (fun v =>
              (v.member_votes.lookup name).isSome &&
                !(v.outcome = "PASS" || v.outcome = "FAIL")) : Int) <
            (votes.countP
              (fun v => (v.member_votes.lookup name).isSome) : Int) -
              votes.countP (fun v =>
                decide (v.member_votes.lookup name = some "ABSENT")) -
              votes.countP (fun v =>
                decide (v.member_votes.lookup name = some "ABSTAIN"))
         then
           (votes.countP
             (fun v => (v.member_votes.lookup name).isSome) : Int) -
             votes.countP (fun v =>
               decide (v.member_votes.lookup name = some "ABSENT")) -
             votes.countP (fun v =>
               decide (v.member_votes.lookup name = some "ABSTAIN")) -
             votes.countP (fun v =>
               (v.member_votes.lookup name).isSome &&
                 !(v.outcome = "PASS" || v.outcome = "FAIL"))
         else 1)) ∧
    (∀ (votes : List VoteRec) (name : String),
      dissent_rate votes name =
        (if dissent_denom votes name ≠ 0 then
          pyRound1 ((votes.countP (fun v =>
              decide ((v.outcome = "PASS" ∧
                  v.member_votes.lookup name = some "NAY") ∨
                (v.outcome = "FAIL" ∧
                  v.member_votes.lookup name = some "AYE"))) : ℚ) /
            (dissent_denom votes name : ℚ) * 100)
         else 0)) ∧
    (∀ (votes : List VoteRec) (name : String),
      (∀ v ∈ votes, v.outcome = "PASS" →
        v.member_votes.lookup name = some "AYE") →
      (∀ v ∈ votes, v.member_votes.lookup name ≠ some "NAY") →
      (∀ v ∈ votes, v.member_votes.lookup name = some "AYE" →
        v.outcome = "PASS") →
      dissent_rate votes name = 0) := by
  refine ⟨member_stats_losing, member_stats_close, ?_, ?_, ?_⟩
  · intro votes name
    simp only [dissent_denom, member_stats_total, member_stats_absent,
      member_stats_abstain, special_outcomes, gt_iff_lt]
  · intro votes name
    simp only [dissent_rate, member_stats_losing]
  · intro votes name h1 h2 h3
    have hzero : (member_stats_counts votes name).votes_on_losing_side = 0 := by
      rw [member_stats_losing]
      rw [List.countP_eq_zero]
      intro v hv
      simp only [decide_eq_true_eq, not_or]
      constructor
      · rintro ⟨hp, hn⟩
        exact h2 v hv hn
      · rintro ⟨hf, ha⟩
        have := h3 v hv ha
        rw [this] at hf
        exact absurd hf (by decide)
    rw [dissent_rate, hzero]
    split
    · norm_num [pyRound1, roundHalfEven]
    · rfl

/-- Witness for `dissent_rate_amended_ok`: a member whose single vote
is AYE on a PASS record has dissent rate 0. -/
theorem dissent_rate_amended_witness : dissent_rate [sv2] "M" = 0 :=
  dissent_rate_amended_ok.2.2.2.2 [sv2] "M" (by decide) (by decide) (by decide)

/-- Claim C6: the alignment computation counts a record as shared
exactly when both members' choices on it are AYE or NAY, counts an
agreement when additionally the two choices are equal, omits a pair
with zero shared records from the pair list entirely, reports
agreement rate 100·agreements/shared (rounded to one decimal) for a
pair with shared records, and gives two members with identical choices
on every record an agreement rate of 100. -/
theorem alignment_pair_ok :
    (∀ (votes : List VoteRec) (m1 m2 : String),
      (align_counts votes m1 m2).1 =
        votes.countP (fun v =>
          decide ((v.member_votes.lookup m1 = some "AYE" ∨
                   v.member_votes.lookup m1 = some "NAY") ∧
                  (v.member_votes.lookup m2 = some "AYE" ∨
                   v.member_votes.lookup m2 = some "NAY")))) ∧
    (∀ (votes : List VoteRec) (m1 m2 : String),
      (align_counts votes m1 m2).2 =
        votes.countP (fun v =>
          decide (((v.member_votes.lookup m1 = some "AYE" ∨
                    v.member_votes.lookup m1 = some "NAY") ∧
                   (v.member_votes.lookup m2 = some "AYE" ∨
                    v.member_votes.lookup m2 = some "NAY")) ∧
                  v.member_votes.lookup m1 = v.member_votes.lookup m2))) ∧
    (∀ (sn : String → String) (votes : List VoteRec) (m1 m2 : String),
      (align_counts votes m1 m2).1 = 0 →
      alignment_pair sn votes m1 m2 = none) ∧
    (∀ (sn : String → String) (votes : List VoteRec) (m1 m2 : String),
      0 < (align_counts votes m1 m2).1 →
      alignment_pair sn votes m1 m2 =
        some
          { member1 := sn m1
            member2 := sn m2
            shared_votes := (align_counts votes m1 m2).1
            agreements := (align_counts votes m1 m2).2
            agreement_rate :=
              pyRound1 (((align_counts votes m1 m2).2 : ℚ) /
                ((align_counts votes m1 m2).1 : ℚ) * 100) }) ∧
    (∀ (sn : String → String) (votes : List VoteRec)
        (cur : List String) (p : AlignPair),
      p ∈ alignment_pairs sn votes cur → 0 < p.shared_votes) ∧
    (∀ (sn : String → String) (votes : List VoteRec) (m1 m2 : String),
      (∀ v ∈ votes, v.member_votes.lookup m1 = v.member_votes.lookup m2) →
      0 < (align_counts votes m1 m2).1 →
      ∃ pr, alignment_pair sn votes m1 m2 = some pr ∧
        pr.agreement_rate = 100) := by
  refine ⟨align_counts_shared, align_counts_agree, ?_, ?_, ?_, ?_⟩
  · intro sn votes m1 m2 h
    simp [alignment_pair, h]
  · intro sn votes m1 m2 h
    simp only [alignment_pair, if_pos h]
  · intro sn votes cur p hp
    simp only [alignment_pairs] at hp
    rw [mem_sortBy] at hp
    rcases List.mem_filterMap.mp hp with ⟨pair, _, hf⟩
    have hf2 : (if 0 < (align_counts votes pair.1 pair.2).1 then
        some { member1 := sn pair.1
               member2 := sn pair.2
               shared_votes := (align_counts votes pair.1 pair.2).1
               agreements := (align_counts votes pair.1 pair.2).2
               agreement_rate := pyRound1
                 (((align_counts votes pair.1 pair.2).2 : ℚ) /
                   ((align_counts votes pair.1 pair.2).1 : ℚ) * 100) }
      else (none : Option AlignPair)) = some p := hf
    split at hf2
    · rename_i hpos
      rw [Option.some.injEq] at hf2
      rw [← hf2]
      exact hpos
    · exact absurd hf2 (by simp)
  · intro sn votes m1 m2 hid hpos
    have hag : (align_counts votes m1 m2).2 = (align_counts votes m1 m2).1 := by
      rw [align_counts_shared, align_counts_agree]
      apply List.countP_congr
      intro v hv
      simp only [decide_eq_true_eq]
      rw [hid v hv]
      tauto
    have hpair : alignment_pair sn votes m1 m2 =
        some
          { member1 := sn m1
            member2 := sn m2
            shared_votes := (align_counts votes m1 m2).1
            agreements := (align_counts votes m1 m2).2
            agreement_rate :=
              pyRound1 (((align_counts votes m1 m2).2 : ℚ) /
                ((align_counts votes m1 m2).1 : ℚ) * 100) } := by
      simp only [alignment_pair, if_pos hpos]
    refine ⟨_, hpair, ?_⟩
    simp only [hag]
    have hne : ((align_counts votes m1 m2).1 : ℚ) ≠ 0 := by
      have h0 : (align_counts votes m1 m2).1 ≠ 0 := Nat.pos_iff_ne_zero.mp hpos
      exact_mod_cast h0
    rw [div_self hne, one_mul]
    norm_num [pyRound1, roundHalfEven]

/-- Witness for `alignment_pair_ok`: two identical single-vote
histories produce agreement rate 100. -/
theorem alignment_pair_ok_witness :
    ∃ pr, alignment_pair id [sv2] "M" "M" = some pr ∧
      pr.agreement_rate = 100 :=
  alignment_pair_ok.2.2.2.2.2 id [sv2] "M" "M" (by decide) (by decide)


theorem aupdate_mem {l : List ((String × String) × Meeting)}
    {k : String × String} {m : Meeting} :
    ∀ q ∈ aupdate l k m, q.2 = m ∨ q ∈ l := by
  intro q hq
  unfold aupdate at hq
  split at hq
  · rcases List.mem_map.mp hq with ⟨p, hp, he⟩
    by_cases hk : p.1 = k
    · rw [if_pos hk] at he
      left
      rw [← he]
    · rw [if_neg hk] at he
      right
      rw [← he]
      exact hp
  · rcases List.mem_append.mp hq with h | h
    · right; exact h
    · left
      rw [List.mem_singleton.mp h]

theorem freshMeeting_ok (mid : Nat) (event_id date : String) (row : CsvRow) :
    meetingOK (freshMeeting mid event_id date row) := by
  refine ⟨rfl, rfl, rfl, rfl, ?_⟩
  intro it hit
  exact absurd hit (List.not_mem_nil it)

theorem votedUpdate_ok (st : BuildState) (mkey : String × String)
    (mcounter : Nat) (seen2 : List (String × String)) (m2 : Meeting)
    (date seq item_num title : String) (row : CsvRow)
    (member_votes : List (String × String)) (aseq : Nat)
    (hm2a : m2.agenda_item_count = m2.agenda_items.length + 1)
    (hm2v : m2.vote_count =
      m2.agenda_items.countP (fun it => it.item_type = "voted"))
    (hm2n : m2.non_voted_count =
      m2.agenda_items.countP (fun it => it.item_type = "non_voted"))
    (hm2f : m2.first_reading_count =
      m2.agenda_items.countP (fun it => it.category = some "first_reading"))
    (hm2t : ∀ it ∈ m2.agenda_items,
      it.item_type = "voted" ∨ it.item_type = "non_voted")
    (hst : ∀ q ∈ st.meetings_by_key, meetingOK q.2) :
    ∀ q ∈ (votedUpdate st mkey mcounter seen2 m2 date seq item_num title
        row member_votes aseq).meetings_by_key, meetingOK q.2 := by
  intro q hq
  simp only [votedUpdate] at hq
  rcases aupdate_mem q hq with h | h
  · rw [h]
    refine ⟨?_, ?_, ?_, ?_, ?_⟩
    · simp [List.length_append, hm2a]
    · simp [List.countP_append, List.countP_cons, hm2v]
    · simp [List.countP_append, List.countP_cons, hm2n]
    · simp [List.countP_append, List.countP_cons, hm2f]
    · intro it hit
      rcases List.mem_append.mp hit with h2 | h2
      · exact hm2t it h2
      · left
        rw [List.mem_singleton.mp h2]
  · exact hst q h

theorem nonVotedUpdate_ok (st : BuildState) (mkey : String × String)
    (mcounter : Nat) (seen2 : List (String × String)) (m2 : Meeting)
    (date title eid : String) (row : CsvRow) (aseq : Nat)
    (hm2a : m2.agenda_item_count = m2.agenda_items.length + 1)
    (hm2v : m2.vote_count =
      m2.agenda_items.countP (fun it => it.item_type = "voted"))
    (hm2n : m2.non_voted_count =
      m2.agenda_items.countP (fun it => it.item_type = "non_voted"))
    (hm2f : m2.first_reading_count =
      m2.agenda_items.countP (fun it => it.category = some "first_reading"))
    (hm2t : ∀ it ∈ m2.agenda_items,
      it.item_type = "voted" ∨ it.item_type = "non_voted")
    (hst : ∀ q ∈ st.meetings_by_key, meetingOK q.2) :
    ∀ q ∈ (nonVotedUpdate st mkey mcounter seen2 m2 date title eid row
        aseq).meetings_by_key, meetingOK q.2 := by
  intro q hq
  simp only [nonVotedUpdate] at hq
  rcases aupdate_mem q hq with h | h
  · rw [h]
    refine ⟨?_, ?_, ?_, ?_, ?_⟩
    · simp [List.length_append, hm2a]
    · simp [List.countP_append, List.countP_cons, hm2v]
    · simp [List.countP_append, List.countP_cons, hm2n]
    · simp [List.countP_append, List.countP_cons, hm2f]
    · intro it hit
      rcases List.mem_append.mp hit with h2 | h2
      · exact hm2t it h2
      · right
        rw [List.mem_singleton.mp h2]
  · exact hst q h

theorem processRow_ok (members : List String) (st : BuildState)
    (row : CsvRow) (hst : ∀ q ∈ st.meetings_by_key, meetingOK q.2) :
    ∀ q ∈ (processRow members st row).meetings_by_key, meetingOK q.2 := by
  intro q hq
  simp only [processRow] at hq
  by_cases hd : pyStrip row.event_date = ""
  · rw [if_pos hd] at hq
    exact hst q hq
  · rw [if_neg hd] at hq
    by_cases ht : pyStrip row.title = ""
    · rw [if_pos ht] at hq
      exact hst q hq
    · rw [if_neg ht] at hq
      by_cases hseen : st.seen_items.contains
          (pyStrip row.event_date,
            if pyStrip row.event_item_id ≠ "" then pyStrip row.event_item_id
            else pyStrip row.agenda_sequence ++ "_" ++
              pyStrip row.agenda_number ++ "_" ++
              (pyStrip row.title).take 50) = true
      · rw [if_pos hseen] at hq
        exact hst q hq
      · rw [if_neg hseen] at hq
        rcases hlk : List.lookup
            (pyStrip row.event_id, pyStrip row.event_date)
            st.meetings_by_key with _ | mfound
        · simp only [hlk] at hq
          rcases freshMeeting_ok (st.meeting_id_counter + 1)
            (pyStrip row.event_id) (pyStrip row.event_date) row with
            ⟨h1, h2, h3, h4, h5⟩
          by_cases hbv : buildMemberVotes members row.member_cols ≠ []
          · rw [if_pos hbv] at hq
            refine votedUpdate_ok _ _ _ _ _ _ _ _ _ _ _ _
              ?_ ?_ ?_ ?_ ?_ hst q hq
            · simp [h1]
            · simp [h2]
            · simp [h3]
            · simp [h4]
            · intro it hit
              exact h5 it (by simpa using hit)
          · rw [if_neg hbv] at hq
            refine nonVotedUpdate_ok _ _ _ _ _ _ _ _ _ _
              ?_ ?_ ?_ ?_ ?_ hst q hq
            · simp [h1]
            · simp [h2]
            · simp [h3]
            · simp [h4]
            · intro it hit
              exact h5 it (by simpa using hit)
        · simp only [hlk] at hq
          have hOK : meetingOK mfound := hst _ (lookup_mem hlk)
          rcases hOK with ⟨h1, h2, h3, h4, h5⟩
          by_cases hbv : buildMemberVotes members row.member_cols ≠ []
          · rw [if_pos hbv] at hq
            refine votedUpdate_ok _ _ _ _ _ _ _ _ _ _ _ _
              ?_ ?_ ?_ ?_ ?_ hst q hq
            · simp [h1]
            · simp [h2]
            · simp [h3]
            · simp [h4]
            · intro it hit
              exact h5 it (by simpa using hit)
          · rw [if_neg hbv] at hq
            refine nonVotedUpdate_ok _ _ _ _ _ _ _ _ _ _
              ?_ ?_ ?_ ?_ ?_ hst q hq
            · simp [h1]
            · simp [h2]
            · simp [h3]
            · simp [h4]
            · intro it hit
              exact h5 it (by simpa using hit)

theorem foldl_processRow_ok (members : List String) :
    ∀ (rows : List CsvRow) (st : BuildState),
      (∀ q ∈ st.meetings_by_key, meetingOK q.2) →
      ∀ q ∈ (rows.foldl (processRow members) st).meetings_by_key,
        meetingOK q.2 := by
  intro rows
  induction rows with
  | nil => intro st hst; exact hst
  | cons r t ih =>
    intro st hst
    rw [List.foldl_cons]
    exact ih (processRow members st r) (processRow_ok members st r hst)

/-- Claim C7: in every meeting produced by the site builder, the
derived counts equal the partition sizes of its agenda-item list —
agenda_item_count is the length of agenda_items, every item is voted
or non-voted (never both), vote_count plus non_voted_count equals
agenda_item_count, and first_reading_count counts the agenda items
classified in the first_reading category. -/
theorem meeting_counts_invariant :
    ∀ (members : List String) (rows : List CsvRow),
      ∀ m ∈ (load_all_csv_data members rows).meetings,
        m.agenda_item_count = m.agenda_items.length ∧
        m.vote_count + m.non_voted_count = m.agenda_item_count ∧
        (∀ it ∈ m.agenda_items,
          it.item_type = "voted" ∨ it.item_type = "non_voted") ∧
        m.first_reading_count =
          m.agenda_items.countP (fun it => it.category = some "first_reading") := by
  intro members rows m hm
  simp only [load_all_csv_data] at hm
  rw [mem_sortBy] at hm
  rcases List.mem_map.mp hm with ⟨q, hq, he⟩
  have hok : meetingOK q.2 :=
    foldl_processRow_ok members rows initBuildState
      (by intro p hp; exact absurd hp (List.not_mem_nil p)) q hq
  rcases hok with ⟨h1, h2, h3, h4, h5⟩
  have hitems : m.agenda_items = sortBy itemSeqLt q.2.agenda_items := by
    rw [← he]
  have hlen : m.agenda_items.length = q.2.agenda_items.length := by
    rw [hitems, length_sortBy]
  have hcount : ∀ p : AgendaItem → Bool,
      m.agenda_items.countP p = q.2.agenda_items.countP p := by
    intro p
    rw [hitems, countP_sortBy]
  have hfields : m.agenda_item_count = q.2.agenda_item_count ∧
      m.vote_count = q.2.vote_count ∧
      m.non_voted_count = q.2.non_voted_count ∧
      m.first_reading_count = q.2.first_reading_count := by
    rw [← he]
    exact ⟨rfl, rfl, rfl, rfl⟩
  refine ⟨?_, ?_, ?_, ?_⟩
  · rw [hfields.1, hlen, h1]
  · rw [hfields.2.1, hfields.2.2.1, hfields.1, h1, h2, h3]
    have hsplit : q.2.agenda_items.countP
          (fun it => decide (it.item_type = "non_voted")) =
        q.2.agenda_items.countP
          (fun it => decide (¬ decide (it.item_type = "voted") = true)) := by
      apply List.countP_congr
      intro it hit
      rcases h5 it hit with hv | hn
      · simp [hv]
      · simp [hn]
    rw [hsplit]
    exact (List.length_eq_countP_add_countP
      (fun it => decide (it.item_type = "voted")) q.2.agenda_items).symm
  · intro it hit
    apply h5
    rw [hitems, mem_sortBy] at hit
    exact hit
  · rw [hfields.2.2.2, hcount, h4]

/-- Witness for `meeting_counts_invariant`: on the three-row fixture
the single produced meeting satisfies vote_count + non_voted_count =
agenda_item_count. -/
theorem meeting_counts_invariant_witness :
    ((load_all_csv_data ["Alice X", "Bob Y"]
        [row1, row2, row3]).meetings.headD
      (freshMeeting 0 "" "" row1)).vote_count +
      ((load_all_csv_data ["Alice X", "Bob Y"]
          [row1, row2, row3]).meetings.headD
        (freshMeeting 0 "" "" row1)).non_voted_count =
      ((load_all_csv_data ["Alice X", "Bob Y"]
          [row1, row2, row3]).meetings.headD
        (freshMeeting 0 "" "" row1)).agenda_item_count :=
  (meeting_counts_invariant ["Alice X", "Bob Y"] [row1, row2, row3]
    _ (by decide)).2.1

theorem map_vote_no_recusal (raw : String) :
    map_vote raw ≠ some "RECUSAL" := by
  have h : ∀ v : String, VOTE_MAP.lookup v ≠ some "RECUSAL" := by
    intro v
    simp only [VOTE_MAP, List.lookup]
    (repeat' split) <;> simp
  by_cases hc : pyUpper (pyStrip raw) = "" ∨ pyUpper (pyStrip raw) = "N/A"
  · simp [map_vote, hc]
  · simpa [map_vote, hc] using h (pyUpper (pyStrip raw))

theorem dinsert_mem {l : List (String × String)} {k v : String} :
    ∀ p ∈ dinsert l k v, p.2 = v ∨ p ∈ l := by
  intro p hp
  unfold dinsert at hp
  split at hp
  · rcases List.mem_map.mp hp with ⟨q, hq, he⟩
    by_cases hk : q.1 = k
    · rw [if_pos hk] at he
      left
      rw [← he]
    · rw [if_neg hk] at he
      right
      rw [← he]
      exact hq
  · rcases List.mem_append.mp hp with h | h
    · right; exact h
    · left
      rw [List.mem_singleton.mp h]

theorem buildMemberVotes_no_recusal (members : List String)
    (cols : List (String × String)) :
    ∀ p ∈ buildMemberVotes members cols, p.2 ≠ "RECUSAL" := by
  have key : ∀ (cs : List (String × String))
      (acc : List (String × String)),
      (∀ p ∈ acc, p.2 ≠ "RECUSAL") →
      ∀ p ∈ cs.foldl
        (fun acc cv =>
          let canonical := normalize_name cv.1
          let raw_vote := pyStrip cv.2
          match map_vote raw_vote with
          | some mapped =>
            if members.contains canonical then dinsert acc canonical mapped
            else acc
          | none => acc) acc, p.2 ≠ "RECUSAL" := by
    intro cs
    induction cs with
    | nil => intro acc hacc; exact hacc
    | cons cv t ih =>
      intro acc hacc
      rw [List.foldl_cons]
      apply ih
      rcases hv : map_vote (pyStrip cv.2) with _ | mapped
      · simpa [hv] using hacc
      · simp only [hv]
        split
        · intro p hp
          rcases dinsert_mem p hp with h | h
          · rw [h]
            intro hr
            rw [hr] at hv
            exact map_vote_no_recusal (pyStrip cv.2) hv
          · exact hacc p h
        · exact hacc
  exact key cols [] (by intro p hp; exact absurd hp (List.not_mem_nil p))

theorem assoc_lookup_ne {mv : List (String × String)} {name : String}
    (h : ∀ p ∈ mv, p.2 ≠ "RECUSAL") :
    mv.lookup name ≠ some "RECUSAL" := by
  intro hl
  exact h _ (lookup_mem hl) rfl

theorem votedUpdate_votes (st : BuildState) (mkey : String × String)
    (mcounter : Nat) (seen2 : List (String × String)) (m2 : Meeting)
    (date seq item_num title : String) (row : CsvRow)
    (member_votes : List (String × String)) (aseq : Nat) :
    ∀ v ∈ (votedUpdate st mkey mcounter seen2 m2 date seq item_num title
        row member_votes aseq).votes,
      v ∈ st.votes ∨ v.member_votes = member_votes := by
  intro v hv
  simp only [votedUpdate] at hv
  rcases List.mem_append.mp hv with h | h
  · exact Or.inl h
  · right
    rw [List.mem_singleton.mp h]

theorem processRow_votes (members : List String) (st : BuildState)
    (row : CsvRow) :
    ∀ v ∈ (processRow members st row).votes,
      v ∈ st.votes ∨
        v.member_votes = buildMemberVotes members row.member_cols := by
  intro v hv
  simp only [processRow] at hv
  by_cases hd : pyStrip row.event_date = ""
  · rw [if_pos hd] at hv
    exact Or.inl hv
  · rw [if_neg hd] at hv
    by_cases ht : pyStrip row.title = ""
    · rw [if_pos ht] at hv
      exact Or.inl hv
    · rw [if_neg ht] at hv
      by_cases hseen : st.seen_items.contains
          (pyStrip row.event_date,
            if pyStrip row.event_item_id ≠ "" then pyStrip row.event_item_id
            else pyStrip row.agenda_sequence ++ "_" ++
              pyStrip row.agenda_number ++ "_" ++
              (pyStrip row.title).take 50) = true
      · rw [if_pos hseen] at hv
        exact Or.inl hv
      · rw [if_neg hseen] at hv
        by_cases hbv : buildMemberVotes members row.member_cols ≠ []
        · rw [if_pos hbv] at hv
          exact votedUpdate_votes _ _ _ _ _ _ _ _ _ _ _ _ v hv
        · rw [if_neg hbv] at hv
          simp only [nonVotedUpdate] at hv
          exact Or.inl hv

theorem foldl_votes_no_recusal (members : List String) :
    ∀ (rows : List CsvRow) (st : BuildState),
      (∀ v ∈ st.votes, ∀ p ∈ v.member_votes, p.2 ≠ "RECUSAL") →
      ∀ v ∈ (rows.foldl (processRow members) st).votes,
        ∀ p ∈ v.member_votes, p.2 ≠ "RECUSAL" := by
  intro rows
  induction rows with
  | nil => intro st hst; exact hst
  | cons r t ih =>
    intro st hst
    rw [List.foldl_cons]
    apply ih
    intro v hv
    rcases processRow_votes members st r v hv with h | h
    · exact hst v h
    · rw [h]
      exact buildMemberVotes_no_recusal members r.member_cols

/-- Claim C9: the vote codec's range is {AYE, NAY, ABSENT, ABSTAIN}
plus the not-a-participant sentinel — it never produces RECUSAL — so
no vote record built by the loader carries a RECUSAL choice in its
per-member vote mapping, and every member's recusal_count in the
computed statistics is 0. -/
theorem recusal_impossible :
    (∀ raw, map_vote raw ≠ some "RECUSAL") ∧
    (∀ (members : List String) (rows : List CsvRow),
      ∀ v ∈ (load_all_csv_data members rows).votes, ∀ name : String,
        v.member_votes.lookup name ≠ some "RECUSAL") ∧
    (∀ (members : List String) (rows : List CsvRow) (name : String),
      (member_stats_counts (load_all_csv_data members rows).votes
        name).recusal_count = 0) := by
  have hvotes : ∀ (members : List String) (rows : List CsvRow),
      ∀ v ∈ (load_all_csv_data members rows).votes, ∀ name : String,
        v.member_votes.lookup name ≠ some "RECUSAL" := by
    intro members rows v hv name
    simp only [load_all_csv_data] at hv
    rw [mem_sortBy] at hv
    have h := foldl_votes_no_recusal members rows initBuildState
      (by intro v2 hv2; exact absurd hv2 (List.not_mem_nil v2)) v hv
    exact assoc_lookup_ne h
  refine ⟨map_vote_no_recusal, hvotes, ?_⟩
  intro members rows name
  rw [member_stats_recusal]
  rw [List.countP_eq_zero]
  intro v hv
  simp only [decide_eq_true_eq]
  exact hvotes members rows v hv name

/-- Witness for `recusal_impossible`: the concrete vote record
produced from the fixture rows has no RECUSAL lookup. -/
theorem recusal_impossible_witness :
    ({ id := 1
       outcome := "PASS"
       ayes := 1
       noes := 1
       abstain := 0
       absent := 0
       item_number := "12"
       sec := "PUBLIC_HEARING"
       title := "Zoning case"
       description := ""
       meeting_date := "2025-10-15"
       meeting_id := 1
       meeting_type := "regular"
       topics := ["Planning & Development"]
       matter_file := none
       matter_type := none
       member_votes := [("Alice X", "AYE"), ("Bob Y", "NAY")] } :
      VoteRec).member_votes.lookup "Alice X" ≠ some "RECUSAL" :=
  recusal_impossible.2.1 ["Alice X", "Bob Y"] [row1, row2, row3] _
    (by decide) "Alice X"

example :
    (phase3_correlate [] [] [itemA] [srecB1, srecB2]).map (fun i => i.item_votes)
      = [[("Alice", "YES"), ("Bob", "NO")]] := by decide
example :
    (phase3_correlate [] [] [itemA] [srecC]).map (fun i => i.agenda_number)
      = ["12.", "99"] := by decide
example :
    (mergedLegistar (groupByKey [srecB1]) [itemA, itemA2]).map
      (fun i => i.item_votes) = [[], [("Alice", "YES")]] := by decide

theorem merge_preserves_key (item : LItem) (recs : List SRec) :
    litemKey (merge_socrata_into_item item recs) = litemKey item := by
  cases recs with
  | nil => rfl
  | cons sample t =>
    simp only [merge_socrata_into_item, litemKey]
    split <;> rfl

theorem merge_sets_votes (item : LItem) (recs : List SRec)
    (h : recs ≠ []) :
    (merge_socrata_into_item item recs).item_votes = votesOfGroup recs := by
  cases recs with
  | nil => exact absurd rfl h
  | cons sample t => rfl

theorem merge_keeps_title (item : LItem) (recs : List SRec)
    (h : item.title ≠ "") :
    (merge_socrata_into_item item recs).title = item.title := by
  cases recs with
  | nil => rfl
  | cons sample t =>
    simp only [merge_socrata_into_item]
    rw [if_neg h]

theorem groupStep_sound (acc : List ((String × String) × List SRec))
    (r : SRec)
    (hacc : ∀ g ∈ acc, g.2 ≠ [] ∧ ∀ r2 ∈ g.2, socrataKey r2 = g.1) :
    ∀ g ∈ groupStep acc r, g.2 ≠ [] ∧ ∀ r2 ∈ g.2, socrataKey r2 = g.1 := by
  intro g hg
  simp only [groupStep] at hg
  split at hg
  · rcases List.mem_map.mp hg with ⟨g2, hg2, he⟩
    by_cases hk : g2.1 = socrataKey r
    · rw [if_pos hk] at he
      rw [← he]
      refine ⟨by simp, ?_⟩
      intro r2 hr2
      rcases List.mem_append.mp hr2 with h2 | h2
      · exact (hacc g2 hg2).2 r2 h2
      · rw [List.mem_singleton.mp h2, hk]
    · rw [if_neg hk] at he
      rw [← he]
      exact hacc g2 hg2
  · rcases List.mem_append.mp hg with h2 | h2
    · exact hacc g h2
    · rw [List.mem_singleton.mp h2]
      refine ⟨by simp, ?_⟩
      intro r2 hr2
      rw [List.mem_singleton.mp hr2]

theorem groupByKey_sound (B : List SRec) :
    ∀ g ∈ groupByKey B, g.2 ≠ [] ∧ ∀ r2 ∈ g.2, socrataKey r2 = g.1 := by
  have key : ∀ (rs : List SRec)
      (acc : List ((String × String) × List SRec)),
      (∀ g ∈ acc, g.2 ≠ [] ∧ ∀ r2 ∈ g.2, socrataKey r2 = g.1) →
      ∀ g ∈ rs.foldl groupStep acc,
        g.2 ≠ [] ∧ ∀ r2 ∈ g.2, socrataKey r2 = g.1 := by
    intro rs
    induction rs with
    | nil => intro acc hacc; exact hacc
    | cons r t ih =>
      intro acc hacc
      rw [List.foldl_cons]
      exact ih (groupStep acc r) (groupStep_sound acc r hacc)
  exact key B [] (by intro g hg; exact absurd hg (List.not_mem_nil g))

theorem groupStep_nodup (acc : List ((String × String) × List SRec))
    (r : SRec) (hacc : (acc.map (fun g => g.1)).Nodup) :
    ((groupStep acc r).map (fun g => g.1)).Nodup := by
  simp only [groupStep]
  split
  · have hmap : (acc.map
        (fun g => if g.1 = socrataKey r then (g.1, g.2 ++ [r]) else g)).map
          (fun g => g.1) = acc.map (fun g => g.1) := by
      rw [List.map_map]
      apply List.map_congr_left
      intro g _
      by_cases hk : g.1 = socrataKey r
      · simp [hk]
      · simp [hk]
    rw [hmap]
    exact hacc
  · rename_i hnone
    rw [List.map_append]
    simp only [List.map_cons, List.map_nil]
    rw [List.nodup_append]
    refine ⟨hacc, List.nodup_singleton _, ?_⟩
    intro x hx hx2
    rw [List.mem_singleton.mp hx2] at hx
    rcases List.mem_map.mp hx with ⟨g, hg, he⟩
    exact hnone (List.any_eq_true.mpr ⟨g, hg, by simp [he]⟩)

theorem groupByKey_nodup (B : List SRec) :
    ((groupByKey B).map (fun g => g.1)).Nodup := by
  have key : ∀ (rs : List SRec)
      (acc : List ((String × String) × List SRec)),
      ((acc.map (fun g => g.1)).Nodup) →
      (((rs.foldl groupStep acc).map (fun g => g.1)).Nodup) := by
    intro rs
    induction rs with
    | nil => intro acc hacc; exact hacc
    | cons r t ih =>
      intro acc hacc
      rw [List.foldl_cons]
      exact ih (groupStep acc r) (groupStep_nodup acc r hacc)
  exact key B [] (by simp)

theorem mergedLegistar_length
    (G : List ((String × String) × List SRec)) (A : List LItem) :
    (mergedLegistar G A).length = A.length := by
  induction A with
  | nil => rfl
  | cons it rest ih => simp [mergedLegistar, ih]

theorem mergedLegistar_get
    (G : List ((String × String) × List SRec)) :
    ∀ (A : List LItem) (i : Nat),
      (mergedLegistar G A).get? i =
        (A.get? i).map (fun it => mergeTransform G (A.drop (i + 1)) it) := by
  intro A
  induction A with
  | nil => intro i; cases i <;> rfl
  | cons it rest ih =>
    intro i
    cases i with
    | zero => rfl
    | succ j =>
      show (mergedLegistar G rest).get? j = _
      rw [ih j]
      rfl

theorem mem_of_get_lt {A : List LItem} {i j : Nat} {it : LItem}
    (h : A.get? j = some it) (hij : i < j) : it ∈ A.drop (i + 1) := by
  have hj : j = (i + 1) + (j - (i + 1)) := by omega
  have h2 : (A.drop (i + 1)).get? (j - (i + 1)) = some it := by
    rw [List.get?_eq_getElem?, List.getElem?_drop, ← List.get?_eq_getElem?,
      ← hj]
    exact h
  exact List.get?_mem h2

theorem keyIndexed_of_mem {rest : List LItem} {it : LItem}
    {k : String × String} (hm : it ∈ rest) (hk : litemKey it = some k) :
    keyIndexed rest k = true :=
  List.any_eq_true.mpr ⟨it, hm, by simp [hk]⟩

theorem keyIndexed_iff (A : List LItem) (k : String × String) :
    keyIndexed A k = true ↔ ∃ it ∈ A, litemKey it = some k := by
  unfold keyIndexed
  rw [List.any_eq_true]
  constructor
  · rintro ⟨it, hm, hd⟩
    exact ⟨it, hm, by simpa using hd⟩
  · rintro ⟨it, hm, hd⟩
    exact ⟨it, hm, by simpa using hd⟩

theorem countP_mergedLegistar
    (G : List ((String × String) × List SRec)) (k : String × String)
    (recs : List SRec) (hlk : G.lookup k = some recs)
    (hvne : votesOfGroup recs ≠ []) :
    ∀ (A : List LItem), (∀ it ∈ A, it.item_votes = []) →
      (mergedLegistar G A).countP
          (fun it => decide (litemKey it = some k) &&
            decide (it.item_votes = votesOfGroup recs)) =
        (if keyIndexed A k then 1 else 0) := by
  intro A
  induction A with
  | nil => intro _; rfl
  | cons it rest ih =>
    intro hA
    have hArest : ∀ it2 ∈ rest, it2.item_votes = [] := by
      intro it2 h2
      exact hA it2 (List.mem_cons_of_mem it h2)
    have hit : it.item_votes = [] := hA it (List.mem_cons_self it rest)
    rw [show mergedLegistar G (it :: rest) =
      mergeTransform G rest it :: mergedLegistar G rest from rfl]
    rw [List.countP_cons, ih hArest]
    rcases hkey : litemKey it with _ | k1
    · have ht : mergeTransform G rest it = it := by
        simp [mergeTransform, hkey]
      rw [ht]
      have hq : (decide (litemKey it = some k) &&
          decide (it.item_votes = votesOfGroup recs)) = false := by
        simp [hkey]
      rw [hq]
      have hki : keyIndexed (it :: rest) k = keyIndexed rest k := by
        unfold keyIndexed
        rw [List.any_cons]
        simp [hkey]
      rw [hki]
      simp
    · by_cases hk1 : k1 = k
      · rw [hk1] at hkey
        have hki : keyIndexed (it :: rest) k = true :=
          keyIndexed_of_mem (List.mem_cons_self it rest) hkey
        rw [hki]
        by_cases hrest : keyIndexed rest k = true
        · have ht : mergeTransform G rest it = it := by
            simp only [mergeTransform, hkey, hlk, hrest, if_true]
          rw [ht]
          have hne2 : ([] : List (String × String)) ≠ votesOfGroup recs :=
            fun hx => hvne hx.symm
          have hq : (decide (litemKey it = some k) &&
              decide (it.item_votes = votesOfGroup recs)) = false := by
            simp [hit, hne2]
          rw [hq, hrest]
          simp
        · rw [Bool.not_eq_true] at hrest
          have ht : mergeTransform G rest it =
              merge_socrata_into_item it recs := by
            simp only [mergeTransform, hkey, hlk, hrest]
            rw [if_neg (by simp)]
          rw [ht]
          have hrne : recs ≠ [] := by
            intro hc
            rw [hc] at hvne
            exact hvne rfl
          have hq : (decide (litemKey (merge_socrata_into_item it recs) =
                some k) &&
              decide ((merge_socrata_into_item it recs).item_votes =
                votesOfGroup recs)) = true := by
            rw [merge_preserves_key, merge_sets_votes it recs hrne]
            simp [hkey]
          rw [hq, hrest]
          simp
      · have hki : keyIndexed (it :: rest) k = keyIndexed rest k := by
          unfold keyIndexed
          rw [List.any_cons]
          simp [hkey, hk1]
        rw [hki]
        rcases hlk1 : G.lookup k1 with _ | recs1
        · have ht : mergeTransform G rest it = it := by
            simp [mergeTransform, hkey, hlk1]
          rw [ht]
          have hq : (decide (litemKey it = some k) &&
              decide (it.item_votes = votesOfGroup recs)) = false := by
            simp [hkey, hk1]
          rw [hq]
          simp
        · by_cases hrest : keyIndexed rest k1 = true
          · have ht : mergeTransform G rest it = it := by
              simp only [mergeTransform, hkey, hlk1, hrest, if_true]
            rw [ht]
            have hq : (decide (litemKey it = some k) &&
                decide (it.item_votes = votesOfGroup recs)) = false := by
              simp [hkey, hk1]
            rw [hq]
            simp
          · rw [Bool.not_eq_true] at hrest
            have ht : mergeTransform G rest it =
                merge_socrata_into_item it recs1 := by
              simp only [mergeTransform, hkey, hlk1, hrest]
              rw [if_neg (by simp)]
            rw [ht]
            have hq : (decide (litemKey (merge_socrata_into_item it recs1) =
                  some k) &&
                decide ((merge_socrata_into_item it recs1).item_votes =
                  votesOfGroup recs)) = false := by
              rw [merge_preserves_key]
              simp [hkey, hk1]
            rw [hq]
            simp

theorem mem_keys_lookup {K V : Type} [BEq K] [LawfulBEq K]
    {G : List (K × V)} {k : K} (h : k ∈ G.map (fun g => g.1)) :
    ∃ v, G.lookup k = some v := by
  induction G with
  | nil => simp at h
  | cons g t ih =>
    rw [List.map_cons] at h
    rcases List.mem_cons.mp h with h2 | h2
    · refine ⟨g.2, ?_⟩
      rcases g with ⟨k2, v2⟩
      simp only at h2
      rw [h2]
      simp [List.lookup]
    · rcases ih h2 with ⟨v, hv⟩
      by_cases hk : k == g.1
      · refine ⟨g.2, ?_⟩
        rcases g with ⟨k2, v2⟩
        rw [List.lookup]
        simp only at hk
        rw [hk]
      · refine ⟨v, ?_⟩
        rcases g with ⟨k2, v2⟩
        rw [List.lookup]
        simp only at hk
        rw [Bool.not_eq_true] at hk
        rw [hk]
        exact hv

theorem litemKey_newItemFor (ml vl : List (String × String))
    (k : String × String) (recs : List SRec)
    (hrecs : ∀ r ∈ recs, socrataKey r = k) :
    litemKey (newItemFor ml vl k recs) = none ∨
      litemKey (newItemFor ml vl k recs) = some k := by
  unfold newItemFor
  rw [merge_preserves_key]
  cases recs with
  | nil =>
    left
    rfl
  | cons r t =>
    have hk := hrecs r (List.mem_cons_self r t)
    unfold socrataKey at hk
    have hdate : r.date.take 10 = k.1 := by rw [← hk]
    have hnum : normalize_agenda_number r.agenda_item_number = k.2 := by
      rw [← hk]
    have hnum2 : (newItemBase ml vl k (r :: t)).agenda_number =
        r.agenda_item_number := rfl
    have hdate2 : (newItemBase ml vl k (r :: t)).event_date = k.1 := rfl
    simp only [litemKey, hnum2, hdate2, hnum]
    by_cases hz : k.2 = ""
    · left
      rw [if_pos hz]
    · right
      rw [if_neg hz]

theorem unmatchedKeys_spec (A : List LItem)
    (G : List ((String × String) × List SRec)) :
    ∀ k ∈ unmatchedKeys A G,
      keyIndexed A k = false ∧ k ∈ G.map (fun g => g.1) := by
  intro k hk
  unfold unmatchedKeys at hk
  rw [List.mem_filter] at hk
  refine ⟨by simpa using hk.2, hk.1⟩

theorem countP_newItems (ml vl : List (String × String)) (A : List LItem)
    (B : List SRec) (k : String × String)
    (hki : keyIndexed A k = true) :
    ((sortBy keyLtB (unmatchedKeys A (groupByKey B))).map
      (fun k2 => newItemFor ml vl k2
        (((groupByKey B).lookup k2).getD []))).countP
      (fun it => decide (litemKey it = some k) &&
        decide (it.item_votes = votesOfGroup
          (((groupByKey B).lookup k).getD []))) = 0 := by
  rw [List.countP_eq_zero]
  intro x hx
  rcases List.mem_map.mp hx with ⟨k2, hk2, he⟩
  rw [mem_sortBy] at hk2
  rcases unmatchedKeys_spec A (groupByKey B) k2 hk2 with ⟨hnk, hmem⟩
  rcases mem_keys_lookup hmem with ⟨recs2, hlk2⟩
  have hsound := (groupByKey_sound B ⟨k2, recs2⟩ (lookup_mem hlk2)).2
  have hkey : litemKey x = none ∨ litemKey x = some k2 := by
    rw [← he, hlk2]
    exact litemKey_newItemFor ml vl k2 recs2 hsound
  have hne : k2 ≠ k := by
    intro hc
    rw [hc] at hnk
    rw [hnk] at hki
    exact Bool.false_ne_true hki
  rcases hkey with h | h <;> simp [h, hne]

/-- Claim C1: the correlator matches exclusively on the exact composite
key.  For every Legistar item list and Socrata record list: the output
item count equals the Legistar item count plus the number of unmatched
Socrata groups (no record silently dropped); with Socrata data present
the output is a permutation of the in-place-merged Legistar items plus
exactly one synthesized item per unmatched group; a merge attaches the
group's per-member vote mapping and keeps a non-empty Legistar title;
a matched group yields exactly one output item carrying its key and its
vote mapping; the item that receives a matched group is present in the
output with the Legistar title when non-empty; and a Legistar item
whose key has no Socrata group passes through unchanged. -/
theorem phase3_correlate_ok :
    ∀ (ml vl : List (String × String)) (A : List LItem) (B : List SRec),
      (phase3_correlate ml vl A B).length =
        A.length + (unmatchedKeys A (groupByKey B)).length ∧
      (B ≠ [] →
        (phase3_correlate ml vl A B).Perm
          (mergedLegistar (groupByKey B) A ++
            (sortBy keyLtB (unmatchedKeys A (groupByKey B))).map
              (fun k => newItemFor ml vl k
                (((groupByKey B).lookup k).getD [])))) ∧
      (∀ item recs, recs ≠ [] →
        (merge_socrata_into_item item recs).item_votes = votesOfGroup recs ∧
        (item.title ≠ "" →
          (merge_socrata_into_item item recs).title = item.title)) ∧
      (∀ (k : String × String) (recs : List SRec),
        (groupByKey B).lookup k = some recs →
        keyIndexed A k = true →
        votesOfGroup recs ≠ [] →
        (∀ it ∈ A, it.item_votes = []) →
        (phase3_correlate ml vl A B).countP
          (fun it => decide (litemKey it = some k) &&
            decide (it.item_votes = votesOfGroup recs)) = 1) ∧
      (∀ (i : Nat) (it : LItem), A.get? i = some it →
        (∀ k, litemKey it = some k → (groupByKey B).lookup k = none) →
        (mergedLegistar (groupByKey B) A).get? i = some it ∧
        it ∈ phase3_correlate ml vl A B) := by
  intro ml vl A B
  refine ⟨?_, ?_, ?_, ?_, ?_⟩
  · by_cases hB : B = []
    · subst hB
      show (if ([] : List SRec) = [] then A else _).length = _
      rw [if_pos rfl]
      rfl
    · show (if B = [] then A else _).length = _
      rw [if_neg hB]
      rw [length_sortBy, List.length_append, mergedLegistar_length,
        List.length_map, length_sortBy]
  · intro hB
    show (if B = [] then A else _).Perm _
    rw [if_neg hB]
    exact sortBy_perm _ _
  · intro item recs hrne
    exact ⟨merge_sets_votes item recs hrne,
      fun ht => merge_keeps_title item recs ht⟩
  · intro k recs hlk hki hvne hA
    have hB : B ≠ [] := by
      intro hc
      subst hc
      simp [groupByKey, List.lookup] at hlk
    show (if B = [] then A else _).countP _ = 1
    rw [if_neg hB]
    rw [countP_sortBy, List.countP_append]
    rw [countP_mergedLegistar (groupByKey B) k recs hlk hvne A hA]
    have hgd : ((groupByKey B).lookup k).getD [] = recs := by
      rw [hlk]
      rfl
    have hnew := countP_newItems ml vl A B k hki
    rw [hgd] at hnew
    rw [hnew, hki]
    simp
  · intro i it hget hnol
    have hmg : (mergedLegistar (groupByKey B) A).get? i = some it := by
      rw [mergedLegistar_get]
      rw [hget]
      rw [Option.map_some']
      congr 1
      unfold mergeTransform
      rcases hkey : litemKey it with _ | k
      · rfl
      · have hn := hnol k hkey
        simp [hn]
    refine ⟨hmg, ?_⟩
    by_cases hB : B = []
    · subst hB
      show it ∈ (if ([] : List SRec) = [] then A else _)
      rw [if_pos rfl]
      exact List.get?_mem hget
    · show it ∈ (if B = [] then A else _)
      rw [if_neg hB]
      rw [(sortBy_perm _ _).mem_iff]
      exact List.mem_append_left _ (List.get?_mem hmg)

/-- Witness for `phase3_correlate_ok`: the matched fixture group
produces exactly one unified output item carrying its key and its
per-member vote mapping, and the unmatched Legistar fixture passes
through unchanged. -/
theorem phase3_correlate_ok_witness :
    (phase3_correlate [] [] [itemA] [srecB1, srecB2]).countP
      (fun it => decide (litemKey it = some ("2025-10-15", "12")) &&
        decide (it.item_votes = votesOfGroup [srecB1, srecB2])) = 1 :=
  (phase3_correlate_ok [] [] [itemA] [srecB1, srecB2]).2.2.2.1
    ("2025-10-15", "12") [srecB1, srecB2] (by decide) (by decide)
    (by decide) (by decide)

/-- Claim C10: when two source-A items share the same composite key,
the correlator index keeps only the later one; a matching source-B
group merges its vote mapping into that later item only, every other
item with the key (in particular the earlier duplicate) passes through
unchanged, so at most one source-A item receives the merge. -/
theorem duplicate_key_last_wins
    (A : List LItem) (B : List SRec)
    (i j : Nat) (it1 it2 : LItem) (k : String × String)
    (recs : List SRec)
    (hij : i < j)
    (h1 : A.get? i = some it1) (h2 : A.get? j = some it2)
    (hk1 : litemKey it1 = some k) (hk2 : litemKey it2 = some k)
    (hlast : keyIndexed (A.drop (j + 1)) k = false)
    (hlk : (groupByKey B).lookup k = some recs)
    (hrne : recs ≠ []) :
    (mergedLegistar (groupByKey B) A).get? j =
        some (merge_socrata_into_item it2 recs) ∧
    (merge_socrata_into_item it2 recs).item_votes = votesOfGroup recs ∧
    (mergedLegistar (groupByKey B) A).get? i = some it1 ∧
    ∀ (i2 : Nat) (it : LItem), i2 ≠ j → A.get? i2 = some it →
      litemKey it = some k →
      (mergedLegistar (groupByKey B) A).get? i2 = some it := by
  have hpass : ∀ (i2 : Nat) (it : LItem), i2 ≠ j → A.get? i2 = some it →
      litemKey it = some k →
      (mergedLegistar (groupByKey B) A).get? i2 = some it := by
    intro i2 it hne hget hkey
    have htrue : keyIndexed (A.drop (i2 + 1)) k = true := by
      rcases Nat.lt_or_ge i2 j with hlt | hge
      · exact keyIndexed_of_mem (mem_of_get_lt h2 hlt) hk2
      · have hjlt : j < i2 := lt_of_le_of_ne hge (fun hc => hne hc.symm)
        have : keyIndexed (A.drop (j + 1)) k = true :=
          keyIndexed_of_mem (mem_of_get_lt hget hjlt) hkey
        rw [hlast] at this
        exact absurd this (by simp)
    rw [mergedLegistar_get, hget, Option.map_some']
    simp [mergeTransform, hkey, hlk, htrue]
  refine ⟨?_, merge_sets_votes it2 recs hrne, hpass i it1 (Nat.ne_of_lt hij) h1 hk1, hpass⟩
  rw [mergedLegistar_get, h2, Option.map_some']
  simp [mergeTransform, hk2, hlk, hlast]

/-- Witness for `duplicate_key_last_wins`: with two fixture items
sharing key `("2025-10-15", "12")` and one matching Socrata record,
the later item receives the merge and the earlier one is unchanged. -/
theorem duplicate_key_last_wins_witness :
    (mergedLegistar (groupByKey [srecB1]) [itemA, itemA2]).get? 1 =
        some (merge_socrata_into_item itemA2 [srecB1]) ∧
    (mergedLegistar (groupByKey [srecB1]) [itemA, itemA2]).get? 0 =
        some itemA :=
  ⟨(duplicate_key_last_wins [itemA, itemA2] [srecB1] 0 1 itemA itemA2
      ("2025-10-15", "12") [srecB1] (by decide) (by decide) (by decide)
      (by decide) (by decide) (by decide) (by decide) (by decide)).1,
   (duplicate_key_last_wins [itemA, itemA2] [srecB1] 0 1 itemA itemA2
      ("2025-10-15", "12") [srecB1] (by decide) (by decide) (by decide)
      (by decide) (by decide) (by decide) (by decide) (by decide)).2.2.1⟩

theorem itemSeqLt_asymm :
    ∀ a b, itemSeqLt a b = true → itemSeqLt b a = false := by
  intro a b h
  simp only [itemSeqLt, decide_eq_true_eq] at h
  simp only [itemSeqLt, decide_eq_false_iff_not]
  omega

theorem itemSeqLt_negtrans :
    ∀ a b c, itemSeqLt b a = false → itemSeqLt c b = false →
      itemSeqLt c a = false := by
  intro a b c h1 h2
  simp only [itemSeqLt, decide_eq_false_iff_not] at h1 h2
  simp only [itemSeqLt, decide_eq_false_iff_not]
  omega

/-- Claim C8: the pipeline is deterministic.  Both stages are pure
functions, so identical input sequences give identical output, and
every output ordering is produced by a sort over a total order: when
Socrata data is present the correlator output is sorted by the
(date, sequence, number) key, the site meetings list is sorted
date-descending, the votes list is sorted by the descending
(date, item-number) key, and each meeting's agenda items are sorted by
agenda sequence. -/
theorem pipeline_deterministic :
    (∀ (ml vl : List (String × String)) (A A' : List LItem)
        (B B' : List SRec), A = A' → B = B' →
        phase3_correlate ml vl A B = phase3_correlate ml vl A' B') ∧
    (∀ (members members' : List String) (rows rows' : List CsvRow),
        members = members' → rows = rows' →
        load_all_csv_data members rows = load_all_csv_data members' rows') ∧
    (∀ (ml vl : List (String × String)) (A : List LItem) (B : List SRec),
        B ≠ [] →
        (phase3_correlate ml vl A B).Pairwise
          (fun x y => phase3Lt y x = false)) ∧
    (∀ (members : List String) (rows : List CsvRow),
        (load_all_csv_data members rows).meetings.Pairwise
          (fun x y => meetingDateGt y x = false) ∧
        (load_all_csv_data members rows).votes.Pairwise
          (fun x y => voteKeyGt y x = false) ∧
        ∀ m ∈ (load_all_csv_data members rows).meetings,
          m.agenda_items.Pairwise (fun x y => itemSeqLt y x = false)) := by
  refine ⟨?_, ?_, ?_, ?_⟩
  · intro ml vl A A2 B B2 h1 h2
    rw [h1, h2]
  · intro m m2 r r2 h1 h2
    rw [h1, h2]
  · intro ml vl A B hB
    show (List.Pairwise _ (if B = [] then A else _))
    rw [if_neg hB]
    exact pairwise_sortBy phase3Lt phase3Lt_asymm phase3Lt_negtrans _
  · intro members rows
    refine ⟨?_, ?_, ?_⟩
    · exact pairwise_sortBy meetingDateGt meetingDateGt_asymm
        meetingDateGt_negtrans _
    · exact pairwise_sortBy voteKeyGt voteKeyGt_asymm voteKeyGt_negtrans _
    · intro m hm
      have hm2 : m ∈ sortBy meetingDateGt
          (((rows.foldl (processRow members) initBuildState).meetings_by_key).map
            (fun p => { p.2 with
              agenda_items := sortBy itemSeqLt p.2.agenda_items })) := hm
      rw [mem_sortBy] at hm2
      rcases List.mem_map.mp hm2 with ⟨p, hp, he⟩
      rw [← he]
      exact pairwise_sortBy itemSeqLt itemSeqLt_asymm itemSeqLt_negtrans _

/-- Witness for `pipeline_deterministic`: on the fixture inputs the
correlator output is sorted under the phase-3 order. -/
theorem pipeline_deterministic_witness :
    (phase3_correlate [] [] [itemA] [srecB1, srecB2]).Pairwise
      (fun x y => phase3Lt y x = false) :=
  pipeline_deterministic.2.2.1 [] [] [itemA] [srecB1, srecB2] (by decide)
